import Mathlib

/-!
# BeaconWise TEK — verification of the governance-kernel core

A shallow embedding, in Lean 4, of the core of the `beaconwise-tek`
governance kernel, together with proofs and refutations of the frozen
specification claims.  Every definition in the `Ecosphere` namespace is a
direct translation of the corresponding Python function or dataclass in the
repository (file and symbol named in each doc comment); the sole exception
is `computeDecisionHash`, which is imported by the Python replay engine but
absent from the source tree, and is therefore modelled from the spec (its
doc comment says so explicitly).

Modelling conventions:
* Python numbers are `Int` / `Nat` / `ℚ` (exact arithmetic); machine floats
  never overflow in the fragments the claims exercise, and where the code
  rounds (`round(x, n)`) we model CPython's banker's rounding exactly.
* Wall-clock reads (`time.time()`), `uuid4()` and similar ambient inputs are
  passed as explicit parameters.
* Python dicts that flow into canonical-JSON hashing are modelled by the
  `Json` type below; `stable_hash` is modelled by real SHA-256 (implemented
  over `Nat` words) of the canonical serialization, so hash recomputation,
  chain linking and tamper detection behave exactly as in the source.
-/

namespace Ecosphere

/-! ## SHA-256 over `Nat` words

A complete implementation of FIPS 180-4 SHA-256.  Words are `Nat` values
reduced mod `2^32`; messages are byte lists (`Nat` values < 256).  This is
the hash behind `ecosphere.utils.stable.stable_hash` (default algorithm
`sha256`, the only one the engine uses). -/

def M32 : Nat := 4294967296

def rotr (x n : Nat) : Nat := ((x >>> n) ||| (x <<< (32 - n))) % M32

def bigS0 (x : Nat) : Nat := rotr x 2 ^^^ rotr x 13 ^^^ rotr x 22

def bigS1 (x : Nat) : Nat := rotr x 6 ^^^ rotr x 11 ^^^ rotr x 25

def smlS0 (x : Nat) : Nat := rotr x 7 ^^^ rotr x 18 ^^^ (x >>> 3)

def smlS1 (x : Nat) : Nat := rotr x 17 ^^^ rotr x 19 ^^^ (x >>> 10)

def chF (x y z : Nat) : Nat := (x &&& y) ^^^ ((x ^^^ 4294967295) &&& z)

def majF (x y z : Nat) : Nat := (x &&& y) ^^^ (x &&& z) ^^^ (y &&& z)

/-- The 64 SHA-256 round constants. -/
def shaK : List Nat := [
 1116352408, 1899447441, 3049323471, 3921009573, 961987163, 1508970993, 2453635748, 2870763221,
 3624381080, 310598401, 607225278, 1426881987, 1925078388, 2162078206, 2614888103, 3248222580,
 3835390401, 4022224774, 264347078, 604807628, 770255983, 1249150122, 1555081692, 1996064986,
 2554220882, 2821834349, 2952996808, 3210313671, 3336571891, 3584528711, 113926993, 338241895,
 666307205, 773529912, 1294757372, 1396182291, 1695183700, 1986661051, 2177026350, 2456956037,
 2730485921, 2820302411, 3259730800, 3345764771, 3516065817, 3600352804, 4094571909, 275423344,
 430227734, 506948616, 659060556, 883997877, 958139571, 1322822218, 1537002063, 1747873779,
 1955562222, 2024104815, 2227730452, 2361852424, 2428436474, 2756734187, 3204031479, 3329325298]

/-- The eight SHA-256 initial hash values. -/
def shaH0 : List Nat := [1779033703, 3144134277, 1013904242, 2773480762,
                         1359893119, 2600822924, 528734635, 1541459225]

/-- Extend the 16-word block to 64 words; `acc` holds words most-recent-first. -/
def extendW : Nat → List Nat → List Nat
  | 0, acc => acc
  | n+1, acc =>
      let w2 := acc.getD 1 0
      let w7 := acc.getD 6 0
      let w15 := acc.getD 14 0
      let w16 := acc.getD 15 0
      let w := (smlS1 w2 + w7 + smlS0 w15 + w16) % M32
      extendW n (w :: acc)

/-- The eight working variables of the SHA-256 compression loop. -/
structure St8 where
  a : Nat
  b : Nat
  c : Nat
  d : Nat
  e : Nat
  f : Nat
  g : Nat
  h : Nat

/-- One round of the SHA-256 compression function. -/
def shaRound (s : St8) (kw : Nat × Nat) : St8 :=
  let t1 := (s.h + bigS1 s.e + chF s.e s.f s.g + kw.1 + kw.2) % M32
  let t2 := (bigS0 s.a + majF s.a s.b s.c) % M32
  { a := (t1 + t2) % M32, b := s.a, c := s.b, d := s.c,
    e := (s.d + t1) % M32, f := s.e, g := s.f, h := s.g }

/-- Big-endian 4-byte groups to 32-bit words. -/
def bytesToWords : List Nat → List Nat
  | b0 :: b1 :: b2 :: b3 :: rest => (b0 * 16777216 + b1 * 65536 + b2 * 256 + b3) :: bytesToWords rest
  | _ => []

def chunk64Go : Nat → List Nat → List (List Nat)
  | 0, _ => []
  | _, [] => []
  | n+1, bs => bs.take 64 :: chunk64Go n (bs.drop 64)

/-- Split a byte list into 64-byte blocks. -/
def chunk64 (bs : List Nat) : List (List Nat) := chunk64Go (bs.length + 1) bs

/-- SHA-256 padding: `0x80`, zeros, then the bit length as 8 big-endian bytes. -/
def padMsg (msg : List Nat) : List Nat :=
  let len := msg.length
  let bitLen := len * 8
  let padZeros := (119 - len % 64) % 64
  msg ++ [128] ++ List.replicate padZeros 0 ++
    [bitLen / 72057594037927936 % 256, bitLen / 281474976710656 % 256,
     bitLen / 1099511627776 % 256, bitLen / 4294967296 % 256,
     bitLen / 16777216 % 256, bitLen / 65536 % 256, bitLen / 256 % 256, bitLen % 256]

/-- Compress one 64-byte block into the running 8-word state. -/
def compressBlock (hs : List Nat) (block : List Nat) : List Nat :=
  let ws16 := bytesToWords block
  let ws := (extendW 48 ws16.reverse).reverse
  let s0 : St8 := { a := hs.getD 0 0, b := hs.getD 1 0, c := hs.getD 2 0, d := hs.getD 3 0,
                    e := hs.getD 4 0, f := hs.getD 5 0, g := hs.getD 6 0, h := hs.getD 7 0 }
  let s := (shaK.zip ws).foldl shaRound s0
  [(hs.getD 0 0 + s.a) % M32, (hs.getD 1 0 + s.b) % M32, (hs.getD 2 0 + s.c) % M32,
   (hs.getD 3 0 + s.d) % M32, (hs.getD 4 0 + s.e) % M32, (hs.getD 5 0 + s.f) % M32,
   (hs.getD 6 0 + s.g) % M32, (hs.getD 7 0 + s.h) % M32]

/-- The eight digest words of a byte message. -/
def sha256Words (msg : List Nat) : List Nat :=
  (chunk64 (padMsg msg)).foldl compressBlock shaH0

def hexDigit (n : Nat) : Char :=
  if n < 10 then Char.ofNat (48 + n) else Char.ofNat (87 + n)

/-- Lowercase-hex rendering of one 32-bit word (8 hex characters). -/
def word8Hex (w : Nat) : List Char :=
  [hexDigit (w / 268435456 % 16), hexDigit (w / 16777216 % 16),
   hexDigit (w / 1048576 % 16), hexDigit (w / 65536 % 16),
   hexDigit (w / 4096 % 16), hexDigit (w / 256 % 16),
   hexDigit (w / 16 % 16), hexDigit (w % 16)]

def sha256HexOfBytes (msg : List Nat) : String :=
  String.mk ((sha256Words msg).map word8Hex).flatten

/-- UTF-8 encoding of one character (code point to 1–4 bytes). -/
def utf8Char (c : Char) : List Nat :=
  let n := c.toNat
  if n < 128 then [n]
  else if n < 2048 then [192 + n / 64, 128 + n % 64]
  else if n < 65536 then [224 + n / 4096, 128 + (n / 64) % 64, 128 + n % 64]
  else [240 + n / 262144, 128 + (n / 4096) % 64, 128 + (n / 64) % 64, 128 + n % 64]

def utf8Bytes (s : String) : List Nat := (s.data.map utf8Char).flatten

/-- `hashlib.sha256(s.encode("utf-8")).hexdigest()`. -/
def sha256Hex (s : String) : String := sha256HexOfBytes (utf8Bytes s)

/-- Every compression step yields exactly 8 words. -/
theorem compressBlock_length (hs block : List Nat) : (compressBlock hs block).length = 8 := by
  simp [compressBlock]

theorem foldl_compress_length (bs : List (List Nat)) :
    ∀ hs, hs.length = 8 → (bs.foldl compressBlock hs).length = 8 := by
  induction bs with
  | nil => intro hs h; simpa using h
  | cons b bs ih => intro hs _; exact ih _ (compressBlock_length hs b)

theorem sha256Words_length (msg : List Nat) : (sha256Words msg).length = 8 := by
  unfold sha256Words
  exact foldl_compress_length _ _ (by simp [shaH0])

theorem word8Hex_length (w : Nat) : (word8Hex w).length = 8 := by
  simp [word8Hex]

theorem flatten_word8Hex_length (ws : List Nat) :
    ((ws.map word8Hex).flatten).length = 8 * ws.length := by
  induction ws with
  | nil => simp
  | cons w ws ih => simp [word8Hex, ih]; ring

/-- A SHA-256 hex digest always has 64 characters. -/
theorem sha256Hex_length (s : String) : (sha256Hex s).length = 64 := by
  unfold sha256Hex sha256HexOfBytes
  show (((sha256Words (utf8Bytes s)).map word8Hex).flatten).length = 64
  rw [flatten_word8Hex_length, sha256Words_length]

/-- A SHA-256 hex digest is never the empty string. -/
theorem sha256Hex_ne_empty (s : String) : sha256Hex s ≠ "" := by
  intro h
  have := sha256Hex_length s
  rw [h] at this
  simp [String.length] at this

/-! ## Canonical JSON and `stable_hash`

Model of `ecosphere.utils.stable`: `stable_json` is
`json.dumps(obj, sort_keys=True, separators=(",", ":"), ensure_ascii=False)`
and `stable_hash` is the SHA-256 hex digest of its UTF-8 bytes.

JSON numbers are modelled as `Int`: every number the engine feeds into a
hashed mapping is integral in this development (timestamps, which are floats
in Python, are taken at whole seconds; nothing in the claims depends on
fractional timestamps, only on deterministic recomputation of the same
serialized value). -/

inductive Json where
  | null : Json
  | bool (b : Bool) : Json
  | num (n : Int) : Json
  | str (s : String) : Json
  | arr (xs : List Json) : Json
  | obj (kvs : List (String × Json)) : Json

mutual

/-- Structural equality of JSON values (Python `==` on the parsed dicts).
Only used to model comparisons inside optional replay steps; no theorem
relies on its semantics. -/
def jeq : Json → Json → Bool
  | .null, .null => true
  | .bool a, .bool b => a = b
  | .num a, .num b => a = b
  | .str a, .str b => a = b
  | .arr a, .arr b => jeqList a b
  | .obj a, .obj b => jeqKvs a b
  | _, _ => false

def jeqList : List Json → List Json → Bool
  | [], [] => true
  | x :: xs, y :: ys => jeq x y && jeqList xs ys
  | _, _ => false

def jeqKvs : List (String × Json) → List (String × Json) → Bool
  | [], [] => true
  | (k1, v1) :: xs, (k2, v2) :: ys => k1 = k2 && jeq v1 v2 && jeqKvs xs ys
  | _, _ => false

end

/-- Two-character escapes and `\u00XX` escapes of `json.dumps`. -/
def escChar (c : Char) : String :=
  if c = '"' then "\\\""
  else if c = '\\' then "\\\\"
  else if c = Char.ofNat 10 then "\\n"
  else if c = Char.ofNat 9 then "\\t"
  else if c = Char.ofNat 13 then "\\r"
  else if c = Char.ofNat 8 then "\\b"
  else if c = Char.ofNat 12 then "\\f"
  else if c.toNat < 32 then "\\u00" ++ String.mk [hexDigit (c.toNat / 16), hexDigit (c.toNat % 16)]
  else String.singleton c

/-- A JSON string literal (`ensure_ascii=False`: non-ASCII stays raw). -/
def jstr (s : String) : String := "\"" ++ String.join (s.data.map escChar) ++ "\""

/-- Stable insertion of a rendered key/value pair, ordered by key
(this is `sort_keys=True`; Python compares strings by code point). -/
def insPair (x : String × String) : List (String × String) → List (String × String)
  | [] => [x]
  | y :: ys => if y.1 ≤ x.1 then y :: insPair x ys else x :: y :: ys

def sortPairs : List (String × String) → List (String × String)
  | [] => []
  | x :: xs => insPair x (sortPairs xs)

def joinComma : List String → String
  | [] => ""
  | [x] => x
  | x :: xs => x ++ "," ++ joinComma xs

mutual

/-- Canonical serialization of one JSON value
(`json.dumps(..., sort_keys=True, separators=(",", ":"), ensure_ascii=False)`). -/
def jser : Json → String
  | .null => "null"
  | .bool b => if b then "true" else "false"
  | .num n => toString n
  | .str s => jstr s
  | .arr xs => "[" ++ joinComma (jserArr xs) ++ "]"
  | .obj kvs =>
      "\x7b" ++ joinComma ((sortPairs (jserObj kvs)).map (fun kv => jstr kv.1 ++ ":" ++ kv.2)) ++ "\x7d"

def jserArr : List Json → List String
  | [] => []
  | x :: xs => jser x :: jserArr xs

def jserObj : List (String × Json) → List (String × String)
  | [] => []
  | (k, v) :: rest => (k, jser v) :: jserObj rest

end

/-- `ecosphere.utils.stable.stable_json`. -/
def stableJson (j : Json) : String := jser j

/-- `ecosphere.utils.stable.stable_hash` with the default `sha256` algorithm. -/
def stableHash (j : Json) : String := sha256Hex (stableJson j)

/-- `ecosphere.utils.stable.hash_suffix`: last `n` characters of a hash
(with the tag split for `algo:digest` forms; engine hashes are untagged). -/
def hashSuffix (h : String) (n : Nat) : String :=
  if h = "" then ""
  else
    let parts := h.splitOn ":"
    let core := if parts.length ≥ 2 then String.intercalate ":" parts.tail else h
    String.mk (core.data.drop (core.data.length - n))

/-- Python string slicing `s[:n]`. -/
def strTake (s : String) (n : Nat) : String := String.mk (s.data.take n)

/-! ### Python-dict helpers on `Json` -/

/-- Key lookup in a JSON object (`d.get(k)`, `None` when absent or not a dict). -/
def Json.getKey : Json → String → Option Json
  | .obj kvs, k => (kvs.find? (fun kv => kv.1 = k)).map (·.2)
  | _, _ => none

/-- Python falsiness of a JSON value (`None`, `False`, `0`, `""`, `[]`, `{}`). -/
def Json.falsy : Json → Bool
  | .null => true
  | .bool b => !b
  | .num n => n = 0
  | .str s => s = ""
  | .arr xs => xs.isEmpty
  | .obj kvs => kvs.isEmpty

def Json.truthy (j : Json) : Bool := !j.falsy

/-- `a or b` on an optional lookup result (Python short-circuit `or`). -/
def jsonOr (o : Option Json) (d : Json) : Json :=
  match o with
  | some v => if v.falsy then d else v
  | none => d

/-- `d[k] = v` on a JSON object: replace the value when the key is present,
append otherwise (a non-object is returned unchanged; the engine only ever
assigns into dicts). -/
def setKey (kvs : List (String × Json)) (k : String) (v : Json) : List (String × Json) :=
  if kvs.any (fun kv => kv.1 = k) then
    kvs.map (fun kv => if kv.1 = k then (k, v) else kv)
  else kvs ++ [(k, v)]

def Json.setKey : Json → String → Json → Json
  | .obj kvs, k, v => .obj (Ecosphere.setKey kvs k v)
  | j, _, _ => j

/-- `d[k1][k2] = v` for the nested integrity-field update. -/
def setIn2 (j : Json) (k1 k2 : String) (v : Json) : Json :=
  j.setKey k1 (((j.getKey k1).getD (.obj [])).setKey k2 v)

def Json.isObj : Json → Bool
  | .obj _ => true
  | _ => false

/-- Python `str()` of a JSON value, to the extent the engine exercises it:
the engine only ever applies it to strings (hash fields) and to the results
of falsy-`or` chains whose fallback is a string.  Remaining cases are
rendered canonically and are never reached by the sealed payloads. -/
def pyStr : Json → String
  | .str s => s
  | .null => "None"
  | .bool b => if b then "True" else "False"
  | .num n => toString n
  | j => stableJson j

/-! ## Session state (`ecosphere.kernel.session`, `ecosphere.tsv.state`)

`Profile` and `PendingGate` are `str` enums in the source; their `.value`
strings are what every comparison uses, so gates and profiles are modelled
as the strings themselves. -/

/-- `ecosphere.kernel.session.StateTrace`. -/
structure StateTrace where
  state_before : String
  state_after : String
  event : String
  gate : String
  interaction : Nat
  meta : Json

/-- `ecosphere.tsv.state.TSVSkillBeliefs` (floats modelled exactly as `ℚ`). -/
structure TSVSkillBeliefs where
  clarity : ℚ := 1/2
  context : ℚ := 1/2
  verification : ℚ := 1/2
  constraints : ℚ := 1/2
  translation_intent : ℚ := 1/2

/-- `ecosphere.tsv.state.SkillEvidence` (the `details` dict and timestamp do
not influence any claim and are carried opaquely). -/
structure SkillEvidence where
  skill : String
  evidence_type : String
  strength : String
  details : Json := .obj []
  timestamp : ℚ := 0

/-- `ecosphere.tsv.state.TSVState`. -/
structure TSVState where
  beliefs : TSVSkillBeliefs := {}
  evidence_log : List SkillEvidence := []
  evidence_window_s : Int := 604800

/-- `TSVState.has_e3`. -/
def TSVState.has_e3 (t : TSVState) (skill : String) : Bool :=
  t.evidence_log.any fun e => e.skill = skill && e.strength = "E3"

/-- `TSVState.high_stakes_ready`. -/
def TSVState.high_stakes_ready (t : TSVState) : Bool :=
  (decide (t.beliefs.clarity ≥ 7/10) &&
   decide (t.beliefs.constraints ≥ 7/10) &&
   decide (t.beliefs.verification ≥ 7/10)) &&
  t.has_e3 "verification"

/-- `ecosphere.kernel.session.PendingGateState`. -/
structure PendingGateState where
  gate : String := "NONE"
  created_at_interaction : Nat := 0
  expires_after_turns : Nat := 3
  payload : Json := .obj []
  payload_hash : String := ""
  confirm_token : String := ""
  require_token_binding : Bool := false
  nonce : String := ""
  consumed_nonces : List String := []
  prompt_cache_hash : String := ""

/-- `PendingGateState.is_active`. -/
def PendingGateState.isActiveGate (pg : PendingGateState) : Bool := pg.gate ≠ "NONE"

/-- `PendingGateState.is_expired`. -/
def PendingGateState.isExpiredGate (pg : PendingGateState) (interactionCount : Nat) : Bool :=
  pg.isActiveGate &&
  decide ((interactionCount : Int) - (pg.created_at_interaction : Int) ≥ (pg.expires_after_turns : Int))

/-- `ecosphere.kernel.session.SessionState`, minus the EPACK-chain fields
(`epack_seq`, `epack_prev_hash`, `prev_decision_hash`), which `_seal`
threads separately through `ChainState` below.  `sessionSecret` models the
`_session_secret` attribute that `gates._session_scope` reads via `getattr`. -/
structure SessionState where
  session_id : String
  sessionSecret : String := ""
  interaction_count : Nat := 0
  current_profile : String := "A_STANDARD"
  pending_gate : PendingGateState := {}
  traces : List StateTrace := []
  reflect_confirmed : Bool := false
  scaffold_approved : Bool := false
  workflow_queue : List String := []
  tsv : TSVState := {}

/-! ## Router (`ecosphere.kernel.router`, `ecosphere.kernel.types`) -/

/-- `ecosphere.kernel.types.DomainTag`. -/
inductive DomainTag where
  | GENERAL
  | TECHNICAL
  | HIGH_STAKES
deriving DecidableEq

/-- `ecosphere.kernel.types.InputVector`. -/
structure InputVector where
  user_text : String
  user_text_hash : String
  safe_stage1_ok : Bool
  safe_stage1_reason : String
  safe_stage2_ok : Bool
  safe_stage2_score : ℚ
  safe_stage2_meta : Json
  safe : Bool
  domain : DomainTag
  complexity : Int
  requires_reflect : Bool
  requires_scaffold : Bool

/-- `ecosphere.kernel.router.route_aru_sequence`, translated clause by
clause from the source. -/
def route_aru_sequence (iv : InputVector) (sess : SessionState) : List String × String :=
  if !iv.safe then (["BOUND"], "safety_fail")
  else if iv.requires_reflect && !sess.reflect_confirmed then
    (["REFLECT"], "requires_reflect")
  else if iv.requires_scaffold && sess.reflect_confirmed && !sess.scaffold_approved then
    (["SCAFFOLD"], "requires_scaffold")
  else if decide (iv.domain = DomainTag.HIGH_STAKES) && !sess.tsv.high_stakes_ready then
    (["DEFER"], "high_stakes_gate")
  else (["TDM"], "default")

/-- The five routing rules exactly as the spec words them (§4.1 "Routing
rules", first match wins); written independently of the source translation
so the two can be compared. -/
def routeSpecRules (iv : InputVector) (sess : SessionState) : List String × String :=
  if iv.safe = false then (["BOUND"], "safety_fail")
  else if iv.requires_reflect = true ∧ sess.reflect_confirmed = false then
    (["REFLECT"], "requires_reflect")
  else if iv.requires_scaffold = true ∧ sess.reflect_confirmed = true ∧ sess.scaffold_approved = false then
    (["SCAFFOLD"], "requires_scaffold")
  else if iv.domain = DomainTag.HIGH_STAKES ∧ sess.tsv.high_stakes_ready = false then
    (["DEFER"], "high_stakes_gate")
  else (["TDM"], "default")

/-! ## Decision Object (`ecosphere.decision.object`) -/

/-- `ecosphere.decision.object._hash_text` (`s or ""` collapses: the model
argument is already a string). -/
def hashText (s : String) : String := sha256Hex s

def optStrJson : Option String → Json
  | some s => .str s
  | none => .null

/-- The Decision Object v1 dict exactly as `build_decision_object` populates
it, before the canonical-hash write-back.  `decision_id` (a `uuid4`) and
`created_at` (wall clock) are ambient inputs passed as parameters.  The
unused `policy_snapshot` keyword of the source is omitted (its body never
reads it). -/
def decisionDict (sessionId decisionId createdAt : String) (payload : Json)
    (assistantText : String) (buildManifest : Json)
    (profile : Option String) (prevDecisionHash : Option String) : Json :=
  .obj [
    ("schema_id", .str "beaconwise-governance/decision"),
    ("schema_version", .num 1),
    ("decision_id", .str decisionId),
    ("created_at", .str createdAt),
    ("context", .obj [
      ("session_id", .str sessionId),
      ("workspace_id", .null),
      ("user_id", .null),
      ("profile", optStrJson profile)]),
    ("input", .obj [
      ("prompt_hash", .str (hashText (pyStr (jsonOr (payload.getKey "prompt") (.str ""))))),
      ("attachments", jsonOr (payload.getKey "attachments") (.arr []))]),
    ("routing", jsonOr (payload.getKey "routing") (.obj [
      ("mode", jsonOr (payload.getKey "mode") (.str "Balanced")),
      ("strategy", jsonOr (payload.getKey "strategy") (.str "Balanced")),
      ("providers", jsonOr (payload.getKey "providers") (.arr []))])),
    ("policy", jsonOr (payload.getKey "policy") (.obj [
      ("policy_id", jsonOr (payload.getKey "policy_id") (.str "tek")),
      ("policy_hash", .str (stableHash (jsonOr (payload.getKey "policy") (.obj [])))),
      ("profile", optStrJson profile),
      ("constraints_applied", jsonOr (payload.getKey "constraints_applied") (.arr []))])),
    ("stages", jsonOr (payload.getKey "stages") (.obj [])),
    ("output", .obj [
      ("final_text_hash", .str (hashText assistantText)),
      ("final_format", (payload.getKey "final_format").getD .null),
      ("confidence", (payload.getKey "confidence").getD .null),
      ("dissent", jsonOr (payload.getKey "dissent") (.obj []))]),
    ("integrity", .obj [
      ("canonical_payload_hash_alg", .str "sha256"),
      ("canonical_payload_hash", .str ""),
      ("prev_decision_hash", optStrJson prevDecisionHash),
      ("epack_block_hash", .null)]),
    ("build", .obj [
      ("kernel", .str "tek-kernel"),
      ("kernel_version", .str (pyStr (jsonOr (buildManifest.getKey "kernel_version")
                                  (jsonOr (buildManifest.getKey "version") (.str "unknown"))))),
      ("manifest_hash", .str (stableHash buildManifest))])]

/-- `ecosphere.decision.object.build_decision_object`.  The source's
`json.loads(_canonical_dumps(decision))` round trip is the identity on these
values (integral numbers, plain strings) and is modelled as such; the field
`integrity.canonical_payload_hash` is then set to `""` (it already is `""`),
the canonical hash is computed, and written back. -/
def buildDecisionObject (sessionId decisionId createdAt : String) (payload : Json)
    (assistantText : String) (buildManifest : Json)
    (profile : Option String) (prevDecisionHash : Option String) : Json × String :=
  let decision := decisionDict sessionId decisionId createdAt payload assistantText
                    buildManifest profile prevDecisionHash
  let decisionForHash := setIn2 decision "integrity" "canonical_payload_hash" (.str "")
  let decisionHash := stableHash decisionForHash
  (setIn2 decision "integrity" "canonical_payload_hash" (.str decisionHash), decisionHash)

/-! ## EPACK records (`ecosphere.epack.chain`) -/

/-- `ecosphere.epack.chain.EPACK`. -/
structure EPACK where
  seq : Nat
  ts : Int
  prev_hash : String
  payload_hash : String
  payload : Json
  hash : String

/-- The `{seq, ts, prev_hash, payload_hash, payload}` mapping whose
`stable_hash` is the EPACK record hash. -/
def epackHeader (seq : Nat) (ts : Int) (prevHash payloadHash : String) (payload : Json) : Json :=
  .obj [("seq", .num seq), ("ts", .num ts), ("prev_hash", .str prevHash),
        ("payload_hash", .str payloadHash), ("payload", payload)]

/-- `ecosphere.epack.chain.new_epack` (`ts = time.time()` passed in;
`if payload_hash_override:` is a Python truthiness test, so an empty-string
override falls through to the default). -/
def newEpack (seq : Nat) (prevHash : String) (payload : Json) (ts : Int)
    (payloadHashOverride : Option String) : EPACK :=
  let defaultHash := pyStr (jsonOr (payload.getKey "decision_hash") (.str (stableHash payload)))
  let payloadHash :=
    match payloadHashOverride with
    | some o => if o = "" then defaultHash else o
    | none => defaultHash
  let h := stableHash (epackHeader seq ts prevHash payloadHash payload)
  { seq := seq, ts := ts, prev_hash := prevHash, payload_hash := payloadHash,
    payload := payload, hash := h }

/-! ## Turn sealing (`ecosphere.kernel.engine._seal`) -/

/-- The EPACK-chain fields of the session that `_seal` reads and writes:
`epack_seq`, `epack_prev_hash` and the `prev_decision_hash` attribute. -/
structure ChainState where
  epackSeq : Nat
  epackPrevHash : String
  prevDecisionHash : Option String

/-- A fresh session's chain fields (`epack_seq=0`, `epack_prev_hash="GENESIS"`). -/
def initialChainState : ChainState :=
  { epackSeq := 0, epackPrevHash := "GENESIS", prevDecisionHash := none }

/-- The sealed record dict `{seq, ts, prev_hash, payload_hash, hash, payload}`
appended to `sess.epacks`.  Engine records always carry all six keys, so the
dict is modelled as a structure. -/
structure EpackRec where
  seq : Nat
  ts : Int
  prev_hash : String
  payload_hash : String
  hash : String
  payload : Json

/-- Everything `_seal` reads from the session and the ambient environment for
one turn, other than the chain fields: texts, the `extra` metadata, the
session display fields, the wall clock and the uuid.  `traces_tail` and
`tsv_snapshot` are the `asdict`/`snapshot()` serializations, supplied as
opaque JSON (their contents never influence the sealed-chain invariants). -/
structure TurnCtx where
  userText : String
  assistantText : String
  extra : Json
  interaction : Nat
  profile : String
  pendingGate : PendingGateState
  tracesTail : Json
  tsvSnapshot : Json
  ts : Int
  decisionId : String
  createdAt : String

/-- The `pending_gate` sub-dict of the sealed payload, field for field. -/
def pendingGateJson (pg : PendingGateState) : Json :=
  .obj [("gate", .str pg.gate),
        ("created_at_interaction", .num pg.created_at_interaction),
        ("expires_after_turns", .num pg.expires_after_turns),
        ("pending_payload_hash", .str pg.payload_hash),
        ("pending_confirm_token", .str pg.confirm_token),
        ("pending_require_token_binding", .bool pg.require_token_binding),
        ("pending_nonce", .str pg.nonce),
        ("prompt_cache_hash", .str pg.prompt_cache_hash)]

/-- The payload dict `_seal` constructs before the Brick-3 commitment keys. -/
def sealPayloadBase (manifest : Json) (t : TurnCtx) : Json :=
  .obj [("interaction", .num t.interaction),
        ("profile", .str t.profile),
        ("user_text_hash", .str (stableHash (.str t.userText))),
        ("assistant_text_hash", .str (stableHash (.str t.assistantText))),
        ("pending_gate", pendingGateJson t.pendingGate),
        ("traces_tail", t.tracesTail),
        ("tsv_snapshot", t.tsvSnapshot),
        ("build_manifest", manifest),
        ("extra", t.extra)]

/-- `ecosphere.kernel.engine._seal`: build the payload, build the Decision
Object over it, add the `decision_hash` / `decision_object` commitment keys,
seal the EPACK with the payload hash overridden to the decision hash, and
advance the chain state. -/
def sealTurn (sessionId : String) (manifest : Json) (st : ChainState) (t : TurnCtx) :
    EpackRec × ChainState :=
  let seq' := st.epackSeq + 1
  let payload := sealPayloadBase manifest t
  let bd := buildDecisionObject sessionId t.decisionId t.createdAt payload
              t.assistantText manifest (some t.profile) st.prevDecisionHash
  let payload' := (payload.setKey "decision_hash" (.str bd.2)).setKey "decision_object" bd.1
  let ep := newEpack seq' st.epackPrevHash payload' t.ts (some bd.2)
  ({ seq := ep.seq, ts := ep.ts, prev_hash := ep.prev_hash,
     payload_hash := ep.payload_hash, hash := ep.hash, payload := ep.payload },
   { epackSeq := seq', epackPrevHash := ep.hash, prevDecisionHash := some bd.2 })

/-- Seal a whole session: one record per turn, threading the chain state
(this is what repeated `handle_turn` calls do, since every `handle_turn`
branch returns through `_seal`). -/
def sealChain (sessionId : String) (manifest : Json) :
    ChainState → List TurnCtx → List EpackRec
  | _, [] => []
  | st, t :: ts =>
      let rs := sealTurn sessionId manifest st t
      rs.1 :: sealChain sessionId manifest rs.2 ts

/-! ## Replay engine (`ecosphere.replay.engine`) -/

/-- Modelled from the spec: `compute_decision_hash` is imported by
`ecosphere.replay.engine` from `ecosphere.decision.object`, but no function
of that name exists anywhere in the source tree.  Spec §4.3, verification
step 3: "If payload contains a `decision_object`, recompute its canonical
payload hash (zeroing its own integrity field) and compare to
`payload_hash`" — i.e. the hash rule of §3 "Decision Object":
`canonical_payload_hash` equals the canonical-JSON hash of the object with
`canonical_payload_hash` set to the empty string. -/
def computeDecisionHash (d : Json) : String :=
  stableHash (setIn2 d "integrity" "canonical_payload_hash" (.str ""))

/-- CPython `round()` to the nearest integer, ties to even. -/
def pyRoundInt (q : ℚ) : ℤ :=
  if q - ⌊q⌋ < 1/2 then ⌊q⌋
  else if 1/2 < q - ⌊q⌋ then ⌊q⌋ + 1
  else if ⌊q⌋ % 2 = 0 then ⌊q⌋ else ⌊q⌋ + 1

/-- CPython `round(x, n)` on the exact values this development evaluates
(where the binary-float representation is exact, `round` agrees with exact
decimal rounding half-to-even). -/
def pyRoundN (n : Nat) (q : ℚ) : ℚ := (pyRoundInt (q * 10 ^ n) : ℚ) / 10 ^ n

/-- `ReplayStep`, projected to the fields that influence results: the step
name and its `match` flag (`match` is a Lean keyword, hence `matched`).  The
informational `original_value` / `replayed_value` / `detail` strings never
feed back into any verdict and are not carried. -/
structure ReplayStepM where
  step_name : String
  matched : Bool

/-- `ecosphere.replay.engine.ReplayResult` (the result-bearing fields;
`timestamp` is the ambient wall clock and is not carried). -/
structure ReplayResultM where
  replay_id : String
  epack_seq : Nat
  steps : List ReplayStepM
  determinism_index : ℚ
  governance_match : Bool
  route_match : Bool
  safety_match : Bool
  chain_link_match : Bool

/-- `ecosphere.replay.engine.replay_governance_decision`, step by step.
`route_fn` / `safety_fn` are the caller-supplied replay functions (total in
the model; a Python exception inside them corresponds to the documented
except-branches, which for `route_fn` yield `match=False` and for
`safety_fn` yield `match=True`, reproduced below for the one structural
exception the source itself can raise — `.get` on a non-dict `extra`).
`now` is the wall clock read for `replay_id`. -/
def replayGovernanceDecision (record : EpackRec) (routeFn : Option (Json → Json))
    (safetyFn : Option (Json → Bool)) (expectedPrevHash : Option String) (now : Int) :
    ReplayResultM :=
  let payload := record.payload
  let extra := if payload.isObj then jsonOr (payload.getKey "extra") (.obj []) else .obj []
  let seq := record.seq
  -- Step 1: EPACK hash integrity
  let payloadHash :=
    if record.payload_hash = ""
    then pyStr (jsonOr (payload.getKey "decision_hash") (.str ""))
    else record.payload_hash
  let recomputed := stableHash (epackHeader record.seq record.ts record.prev_hash payloadHash payload)
  let hashMatch := decide (record.hash = recomputed)
  -- Step 2: Brick 3 commitment rule
  let commitmentOk :=
    match payload.getKey "decision_hash" with
    | some (.str s) => if s = "" then true else decide (s = payloadHash)
    | _ => true
  -- Step 3: Brick 4 Decision Object integrity
  let decisionObjOk :=
    match payload.getKey "decision_object" with
    | some (.obj kvs) => decide (computeDecisionHash (.obj kvs) = payloadHash)
    | _ => true
  -- Step 4: routing determinism (optional)
  let routeMatch :=
    match routeFn with
    | some f =>
        if extra.isObj then
          jeq (jsonOr (extra.getKey "route") (.str "UNKNOWN"))
              (f ((extra.getKey "input_vector").getD (.obj [])))
        else false
    | none => true
  -- Step 5: safety screening (optional)
  let safetyMatch :=
    match safetyFn with
    | some f =>
        if payload.isObj then
          let originalSafe :=
            if extra.isObj then
              match extra.getKey "safety_stage1_ok" with
              | some v => v.truthy
              | none => true
            else true
          decide (originalSafe = f ((payload.getKey "user_text_hash").getD (.str "")))
        else true
    | none => true
  -- Step 7: build manifest presence
  let manifest := if payload.isObj then (payload.getKey "build_manifest").getD (.obj []) else .obj []
  let manifestPresent := manifest.isObj &&
    ((manifest.getKey "manifest_hash").map Json.truthy).getD false
  -- Step 8: chain linkage (only when an expected prev hash is supplied)
  let chainLinkMatch :=
    match expectedPrevHash with
    | some e => decide (record.prev_hash = e)
    | none => true
  let steps : List ReplayStepM :=
    [{ step_name := "epack_hash_integrity", matched := hashMatch },
     { step_name := "payload_hash_commitment", matched := commitmentOk },
     { step_name := "decision_object_integrity", matched := decisionObjOk },
     { step_name := "routing_determinism", matched := routeMatch },
     { step_name := "safety_screening", matched := safetyMatch },
     { step_name := "profile_consistency", matched := true },
     { step_name := "build_manifest", matched := manifestPresent }] ++
    (match expectedPrevHash with
     | some _ => [{ step_name := "chain_linkage", matched := chainLinkMatch }]
     | none => [])
  let allMatch := hashMatch && commitmentOk && decisionObjOk && manifestPresent && chainLinkMatch
  let matchedCount := (steps.filter (·.matched)).length
  let determinismIndex :=
    if steps.length = 0 then 0
    else pyRoundN 1 ((matchedCount : ℚ) / (steps.length : ℚ) * 100)
  { replay_id := strTake (stableHash (.obj [("seq", .num seq), ("ts", .num now)])) 16,
    epack_seq := seq,
    steps := steps,
    determinism_index := determinismIndex,
    governance_match := allMatch,
    route_match := routeMatch,
    safety_match := safetyMatch,
    chain_link_match := chainLinkMatch }

/-- The threading loop of `replay_chain`: the expected previous hash starts
at `None` and is the previous record's stored `hash` thereafter. -/
def replayChainGo (routeFn : Option (Json → Json)) (safetyFn : Option (Json → Bool))
    (now : Int) : List EpackRec → Option String → List ReplayResultM
  | [], _ => []
  | r :: rs, prev =>
      replayGovernanceDecision r routeFn safetyFn prev now ::
      replayChainGo routeFn safetyFn now rs (some r.hash)

/-- `ecosphere.replay.engine.replay_chain`. -/
def replayChain (chain : List EpackRec) (routeFn : Option (Json → Json))
    (safetyFn : Option (Json → Bool)) (now : Int) : List ReplayResultM :=
  replayChainGo routeFn safetyFn now chain none

/-! ## Sealed-record structure lemmas -/

theorem stableHash_ne_empty (j : Json) : stableHash j ≠ "" := sha256Hex_ne_empty _

/-- Nested lookup `d[k1][k2]`. -/
def getIn2 (j : Json) (k1 k2 : String) : Option Json :=
  (j.getKey k1).bind (fun v => v.getKey k2)

/-- The build-manifest presence check of replay step 7, as a predicate:
`current_manifest()` always ends with `d["manifest_hash"] = m.seal_hash()`
(`ecosphere.kernel.provenance.current_manifest`), so every engine manifest
satisfies it. -/
def manifestOk (m : Json) : Bool :=
  m.isObj && ((m.getKey "manifest_hash").map Json.truthy).getD false

/-- The second component of `build_decision_object` is the canonical hash of
the decision dict with a zeroed integrity hash field. -/
theorem buildDecisionObject_snd (sid did cat : String) (payload : Json) (at_ : String)
    (bm : Json) (pr pdh : Option String) :
    (buildDecisionObject sid did cat payload at_ bm pr pdh).2
      = stableHash (setIn2 (decisionDict sid did cat payload at_ bm pr pdh)
          "integrity" "canonical_payload_hash" (.str "")) := rfl

/-- Zeroing the integrity hash of the built Decision Object recovers exactly
the dict that was hashed: the self-referential seal recomputes. -/
theorem buildDecisionObject_selfseal (sid did cat : String) (payload : Json) (at_ : String)
    (bm : Json) (pr pdh : Option String) :
    computeDecisionHash (buildDecisionObject sid did cat payload at_ bm pr pdh).1
      = (buildDecisionObject sid did cat payload at_ bm pr pdh).2 := by
  simp [computeDecisionHash, buildDecisionObject, decisionDict, setIn2,
        Json.setKey, Ecosphere.setKey, Json.getKey]

/-- The built Decision Object stores the computed hash in
`integrity.canonical_payload_hash`. -/
theorem buildDecisionObject_integrity_field (sid did cat : String) (payload : Json)
    (at_ : String) (bm : Json) (pr pdh : Option String) :
    getIn2 (buildDecisionObject sid did cat payload at_ bm pr pdh).1
        "integrity" "canonical_payload_hash"
      = some (.str (buildDecisionObject sid did cat payload at_ bm pr pdh).2) := by
  simp [getIn2, buildDecisionObject, decisionDict, setIn2,
        Json.setKey, Ecosphere.setKey, Json.getKey]

/-- Abbreviation for the Decision Object built inside one `_seal` call. -/
def sealDecision (sid : String) (manifest : Json) (st : ChainState) (t : TurnCtx) : Json × String :=
  buildDecisionObject sid t.decisionId t.createdAt (sealPayloadBase manifest t)
    t.assistantText manifest (some t.profile) st.prevDecisionHash

/-- The payload actually sealed: the base payload plus the two Brick-3
commitment keys. -/
def sealedPayload (sid : String) (manifest : Json) (st : ChainState) (t : TurnCtx) : Json :=
  ((sealPayloadBase manifest t).setKey "decision_hash" (.str (sealDecision sid manifest st t).2)).setKey
    "decision_object" (sealDecision sid manifest st t).1

/-- Field-level description of the record `_seal` produces. -/
theorem sealTurn_record (sid : String) (manifest : Json) (st : ChainState) (t : TurnCtx) :
    (sealTurn sid manifest st t).1 =
      { seq := st.epackSeq + 1, ts := t.ts, prev_hash := st.epackPrevHash,
        payload_hash := (sealDecision sid manifest st t).2,
        hash := stableHash (epackHeader (st.epackSeq + 1) t.ts st.epackPrevHash
                  (sealDecision sid manifest st t).2 (sealedPayload sid manifest st t)),
        payload := sealedPayload sid manifest st t } := by
  have hne : (buildDecisionObject sid t.decisionId t.createdAt (sealPayloadBase manifest t)
      t.assistantText manifest (some t.profile) st.prevDecisionHash).2 ≠ "" := by
    rw [buildDecisionObject_snd]; exact stableHash_ne_empty _
  simp [sealTurn, newEpack, sealedPayload, sealDecision, hne]

/-- The chain-state update of one `_seal` call. -/
theorem sealTurn_state (sid : String) (manifest : Json) (st : ChainState) (t : TurnCtx) :
    (sealTurn sid manifest st t).2 =
      { epackSeq := st.epackSeq + 1,
        epackPrevHash := (sealTurn sid manifest st t).1.hash,
        prevDecisionHash := some (sealDecision sid manifest st t).2 } := by
  simp [sealTurn, newEpack, sealDecision]

/-- Key lookups on a sealed payload. -/
theorem sealedPayload_getKey (sid : String) (manifest : Json) (st : ChainState) (t : TurnCtx) :
    (sealedPayload sid manifest st t).isObj = true ∧
    (sealedPayload sid manifest st t).getKey "decision_hash"
      = some (.str (sealDecision sid manifest st t).2) ∧
    (sealedPayload sid manifest st t).getKey "decision_object"
      = some (sealDecision sid manifest st t).1 ∧
    (sealedPayload sid manifest st t).getKey "build_manifest" = some manifest := by
  refine ⟨?_, ?_, ?_, ?_⟩ <;>
    simp [sealedPayload, sealPayloadBase, Json.setKey, Ecosphere.setKey, Json.getKey, Json.isObj]

/-- The built Decision Object is a JSON object. -/
theorem buildDecisionObject_isObj (sid did cat : String) (payload : Json) (at_ : String)
    (bm : Json) (pr pdh : Option String) :
    (buildDecisionObject sid did cat payload at_ bm pr pdh).1.isObj = true := by
  simp [buildDecisionObject, decisionDict, setIn2, Json.setKey, Ecosphere.setKey,
        Json.getKey, Json.isObj]

/-- Correct linkage between two consecutive records: the later record's
`prev_hash` is the earlier record's stored `hash`. -/
def linksOk (a b : EpackRec) : Prop := b.prev_hash = a.hash

instance : DecidableRel linksOk := fun a b => by unfold linksOk; infer_instance

theorem sealChain_length (sid : String) (m : Json) (st : ChainState) (turns : List TurnCtx) :
    (sealChain sid m st turns).length = turns.length := by
  induction turns generalizing st with
  | nil => rfl
  | cons t ts ih => simp [sealChain, ih]

/-- A sealed chain is correctly linked, and its first record's `prev_hash`
is the chain state's cached previous hash. -/
theorem sealChain_chain (sid : String) (m : Json) (turns : List TurnCtx) :
    ∀ st : ChainState,
      List.Chain' linksOk (sealChain sid m st turns) ∧
      (∀ r, (sealChain sid m st turns).head? = some r → r.prev_hash = st.epackPrevHash) := by
  induction turns with
  | nil => intro st; simp [sealChain]
  | cons t ts ih =>
      intro st
      rw [sealChain]
      obtain ⟨ihc, ihh⟩ := ih (sealTurn sid m st t).2
      constructor
      · rw [List.chain'_cons']
        refine ⟨?_, ihc⟩
        intro r hr
        have hh := ihh r (by simpa using hr)
        unfold linksOk
        rw [hh, sealTurn_state]
      · intro r hr
        simp only [List.head?_cons, Option.some.injEq] at hr
        rw [← hr, sealTurn_record]

/-- Every record of a sealed chain has the structure the engine commits to:
nonempty payload hash equal to both commitment keys
(`decision_hash`, the self-sealed decision object's hash), the build
manifest present, and the record hash recomputable from the header. -/
theorem sealChain_mem (sid : String) (m : Json) (turns : List TurnCtx) :
    ∀ st : ChainState, ∀ r ∈ sealChain sid m st turns,
      r.payload_hash ≠ "" ∧
      r.payload.isObj = true ∧
      r.payload.getKey "decision_hash" = some (.str r.payload_hash) ∧
      (∃ d, r.payload.getKey "decision_object" = some d ∧ d.isObj = true ∧
            computeDecisionHash d = r.payload_hash ∧
            getIn2 d "integrity" "canonical_payload_hash" = some (.str r.payload_hash)) ∧
      r.payload.getKey "build_manifest" = some m ∧
      r.hash = stableHash (epackHeader r.seq r.ts r.prev_hash r.payload_hash r.payload) := by
  induction turns with
  | nil => intro st r hr; simp [sealChain] at hr
  | cons t ts ih =>
      intro st r hr
      rw [sealChain, List.mem_cons] at hr
      rcases hr with hr | hr
      · subst hr
        rw [sealTurn_record]
        obtain ⟨hobj, hdh, hdo, hbm⟩ := sealedPayload_getKey sid m st t
        have hne : (sealDecision sid m st t).2 ≠ "" := by
          rw [sealDecision, buildDecisionObject_snd]; exact stableHash_ne_empty _
        refine ⟨hne, hobj, hdh, ⟨(sealDecision sid m st t).1, hdo, ?_, ?_, ?_⟩, hbm, rfl⟩
        · exact buildDecisionObject_isObj _ _ _ _ _ _ _ _
        · exact buildDecisionObject_selfseal _ _ _ _ _ _ _ _
        · exact buildDecisionObject_integrity_field _ _ _ _ _ _ _ _
      · exact ih _ r hr

theorem pyRoundN_natCast (n : Nat) (k : ℤ) : pyRoundN n (k : ℚ) = k := by
  have h1 : ((k : ℚ) * 10 ^ n) = ((k * 10 ^ n : ℤ) : ℚ) := by push_cast; ring
  have h2 : pyRoundInt ((k * 10 ^ n : ℤ) : ℚ) = k * 10 ^ n := by
    unfold pyRoundInt
    rw [Int.floor_intCast, sub_self]
    norm_num
  rw [pyRoundN, h1, h2]
  push_cast
  field_simp

/-- Replaying a record of the shape `_seal` produces — with no injected
route/safety functions, and an expected previous hash that is absent or
agrees — yields a fully matching result with determinism index 100. -/
theorem replay_clean (m : Json) (r : EpackRec) (hm : manifestOk m = true)
    (h1 : r.payload_hash ≠ "")
    (h2 : r.payload.isObj = true)
    (h3 : r.payload.getKey "decision_hash" = some (.str r.payload_hash))
    (h4 : ∃ d, r.payload.getKey "decision_object" = some d ∧ d.isObj = true ∧
          computeDecisionHash d = r.payload_hash)
    (h5 : r.payload.getKey "build_manifest" = some m)
    (h6 : r.hash = stableHash (epackHeader r.seq r.ts r.prev_hash r.payload_hash r.payload))
    (prev : Option String) (hprev : prev = none ∨ prev = some r.prev_hash) (now : Int) :
    (replayGovernanceDecision r none none prev now).governance_match = true ∧
    (replayGovernanceDecision r none none prev now).chain_link_match = true ∧
    (replayGovernanceDecision r none none prev now).route_match = true ∧
    (replayGovernanceDecision r none none prev now).safety_match = true ∧
    (replayGovernanceDecision r none none prev now).determinism_index = 100 := by
  obtain ⟨d, hd, hdobj, hdhash⟩ := h4
  have hmq : (if r.payload.isObj = true then (r.payload.getKey "build_manifest").getD (.obj [])
              else .obj []) = m := by rw [if_pos h2, h5]; rfl
  cases d with
  | obj kvs =>
      rcases hprev with hp | hp <;> subst hp <;>
        simp only [replayGovernanceDecision, h1, h2, h3, h5, h6, hd, hdhash,
          if_neg (by simpa using h1), if_pos rfl, Option.getD_some, Option.map_some]
      · constructor
        · simp [manifestOk] at hm
          simp [hm]
        · constructor
          · trivial
          constructor
          · trivial
          constructor
          · trivial
          · simp [manifestOk] at hm
            simp [hm, List.filter]
            exact pyRoundN_natCast 1 100
      · constructor
        · simp [manifestOk] at hm
          simp [hm]
        · constructor
          · simp
          constructor
          · trivial
          constructor
          · trivial
          · simp [manifestOk] at hm
            simp [hm, List.filter]
            exact pyRoundN_natCast 1 100
  | null => simp [Json.isObj] at hdobj
  | bool b => simp [Json.isObj] at hdobj
  | num n => simp [Json.isObj] at hdobj
  | str s => simp [Json.isObj] at hdobj
  | arr xs => simp [Json.isObj] at hdobj

/-- The chain-linkage verdict of one replay is exactly the comparison of the
record's `prev_hash` with the expected hash (or a skip). -/
theorem replay_chain_link_match (r : EpackRec) (rf : Option (Json → Json))
    (sf : Option (Json → Bool)) (prev : Option String) (now : Int) :
    (replayGovernanceDecision r rf sf prev now).chain_link_match =
      match prev with
      | none => true
      | some e => decide (r.prev_hash = e) := by
  cases prev <;> rfl

theorem replayChainGo_length (rf : Option (Json → Json)) (sf : Option (Json → Bool))
    (now : Int) (rs : List EpackRec) :
    ∀ prev, (replayChainGo rf sf now rs prev).length = rs.length := by
  induction rs with
  | nil => intro prev; rfl
  | cons r rs ih => intro prev; simp [replayChainGo, ih]

/-- The linkage condition `replay_chain` checks, as a recursive predicate:
each record's `prev_hash` must equal the expected hash threaded from the
previous record (the first record is unchecked when no expectation is
given). -/
def linkedFrom : Option String → List EpackRec → Prop
  | _, [] => True
  | none, r :: rs => linkedFrom (some r.hash) rs
  | some e, r :: rs => r.prev_hash = e ∧ linkedFrom (some r.hash) rs

theorem replayChainGo_link_all (rf : Option (Json → Json)) (sf : Option (Json → Bool))
    (now : Int) (rs : List EpackRec) :
    ∀ prev, (∀ res ∈ replayChainGo rf sf now rs prev, res.chain_link_match = true) ↔
      linkedFrom prev rs := by
  induction rs with
  | nil => intro prev; simp [replayChainGo, linkedFrom]
  | cons r rs ih =>
      intro prev
      rw [replayChainGo]
      simp only [List.mem_cons, forall_eq_or_imp]
      rw [ih (some r.hash), replay_chain_link_match]
      cases prev with
      | none => simp [linkedFrom]
      | some e => simp [linkedFrom]

theorem linkedFrom_iff_chain :
    ∀ (rs : List EpackRec) (prev : Option String),
      linkedFrom prev rs ↔
        ((∀ e, prev = some e → ∀ r, rs.head? = some r → r.prev_hash = e) ∧
         List.Chain' linksOk rs) := by
  intro rs
  induction rs with
  | nil => intro prev; cases prev <;> simp [linkedFrom]
  | cons r rs ih =>
      intro prev
      have hsome := ih (some r.hash)
      cases prev with
      | none =>
          rw [linkedFrom, hsome, List.chain'_cons']
          constructor
          · rintro ⟨hh, hc⟩
            refine ⟨by simp, ?_, hc⟩
            intro y hy
            exact hh r.hash rfl y (by simpa using hy)
          · rintro ⟨_, hy, hc⟩
            refine ⟨?_, hc⟩
            rintro e he y hhy
            cases he
            exact hy y (by simpa using hhy)
      | some e =>
          rw [linkedFrom, hsome, List.chain'_cons']
          constructor
          · rintro ⟨hre, hh, hc⟩
            refine ⟨?_, ?_, hc⟩
            · rintro e2 he2 y hy
              cases he2
              simp at hy
              rw [← hy, hre]
            · intro y hy
              exact hh r.hash rfl y (by simpa using hy)
          · rintro ⟨hhead, hy, hc⟩
            refine ⟨hhead e rfl r rfl, ?_, hc⟩
            rintro e2 he2 y hhy
            cases he2
            exact hy y (by simpa using hhy)

/-- All chain-linkage verdicts of `replay_chain` are true exactly when the
chain is correctly linked record-to-record (the first record's `prev_hash`
is never inspected by this step). -/
theorem replayChain_link_all (c : List EpackRec) (rf : Option (Json → Json))
    (sf : Option (Json → Bool)) (now : Int) :
    (∀ res ∈ replayChain c rf sf now, res.chain_link_match = true) ↔
      List.Chain' linksOk c := by
  rw [replayChain, replayChainGo_link_all, linkedFrom_iff_chain]
  simp

/-- The EPACK chain a fresh session accumulates over a list of turns
(`epack_seq=0`, `epack_prev_hash="GENESIS"`, every turn sealed by `_seal`). -/
def engineChain (sid : String) (manifest : Json) (turns : List TurnCtx) : List EpackRec :=
  sealChain sid manifest initialChainState turns

theorem replayChainGo_sealChain_good (sid : String) (m : Json) (hm : manifestOk m = true)
    (now : Int) (turns : List TurnCtx) :
    ∀ (st : ChainState) (prev : Option String),
      (prev = none ∨ prev = some st.epackPrevHash) →
      ∀ res ∈ replayChainGo none none now (sealChain sid m st turns) prev,
        res.governance_match = true ∧ res.chain_link_match = true ∧
        res.determinism_index = 100 := by
  induction turns with
  | nil => intro st prev _ res hres; rw [sealChain] at hres; simp [replayChainGo] at hres
  | cons t ts ih =>
      intro st prev hprev res hres
      rw [sealChain, replayChainGo] at hres
      rcases List.mem_cons.mp hres with h | h
      · subst h
        obtain ⟨h1, h2, h3, h4, h5, h6⟩ :=
          sealChain_mem sid m (t :: ts) st (sealTurn sid m st t).1
            (by rw [sealChain]; exact List.mem_cons_self _ _)
        obtain ⟨d, hd, hobj, hch, _⟩ := h4
        have hrp : (sealTurn sid m st t).1.prev_hash = st.epackPrevHash := by
          rw [sealTurn_record]
        have hprev2 : prev = none ∨ prev = some (sealTurn sid m st t).1.prev_hash := by
          rcases hprev with h | h
          · exact Or.inl h
          · exact Or.inr (by rw [h, hrp])
        have hc := replay_clean m _ hm h1 h2 h3 ⟨d, hd, hobj, hch⟩ h5 h6 prev hprev2 now
        exact ⟨hc.1, hc.2.1, hc.2.2.2.2⟩
      · exact ih (sealTurn sid m st t).2 (some (sealTurn sid m st t).1.hash)
          (Or.inr (by rw [sealTurn_state])) res h

/-- **C1.**  For every turn sealed by `handle_turn` (equivalently: every
record of a fresh session's sealed chain): the stored Decision Object's
`integrity.canonical_payload_hash` equals the canonical-JSON hash of the
object with that field set to `""`; the EPACK `payload_hash` equals that
decision hash (as does the payload's `decision_hash` commitment key); the
EPACK `hash` is the canonical-JSON hash of
`{seq, ts, prev_hash, payload_hash, payload}`; and `prev_hash` is
`"GENESIS"` for the session's first record and the previous record's `hash`
otherwise. -/
theorem c1_seal_integrity (sid : String) (manifest : Json) (turns : List TurnCtx)
    (i : Nat) (hi : i < (engineChain sid manifest turns).length) :
    (∃ d, ((engineChain sid manifest turns).get ⟨i, hi⟩).payload.getKey "decision_object"
            = some d ∧
        getIn2 d "integrity" "canonical_payload_hash"
          = some (.str (stableHash (setIn2 d "integrity" "canonical_payload_hash" (.str "")))) ∧
        ((engineChain sid manifest turns).get ⟨i, hi⟩).payload_hash
          = stableHash (setIn2 d "integrity" "canonical_payload_hash" (.str ""))) ∧
    ((engineChain sid manifest turns).get ⟨i, hi⟩).payload.getKey "decision_hash"
      = some (.str ((engineChain sid manifest turns).get ⟨i, hi⟩).payload_hash) ∧
    ((engineChain sid manifest turns).get ⟨i, hi⟩).hash
      = stableHash (epackHeader ((engineChain sid manifest turns).get ⟨i, hi⟩).seq
          ((engineChain sid manifest turns).get ⟨i, hi⟩).ts
          ((engineChain sid manifest turns).get ⟨i, hi⟩).prev_hash
          ((engineChain sid manifest turns).get ⟨i, hi⟩).payload_hash
          ((engineChain sid manifest turns).get ⟨i, hi⟩).payload) ∧
    (i = 0 → ((engineChain sid manifest turns).get ⟨i, hi⟩).prev_hash = "GENESIS") ∧
    (∀ j, ∀ hj : j < (engineChain sid manifest turns).length, i = j + 1 →
      ((engineChain sid manifest turns).get ⟨i, hi⟩).prev_hash
        = ((engineChain sid manifest turns).get ⟨j, hj⟩).hash) := by
  obtain ⟨h1, h2, h3, h4, h5, h6⟩ :=
    sealChain_mem sid manifest turns initialChainState
      ((engineChain sid manifest turns).get ⟨i, hi⟩)
      (List.get_mem (engineChain sid manifest turns) i hi)
  obtain ⟨d, hd, hobj, hch, hgi⟩ := h4
  have hch2 : stableHash (setIn2 d "integrity" "canonical_payload_hash" (.str ""))
      = ((engineChain sid manifest turns).get ⟨i, hi⟩).payload_hash := hch
  refine ⟨⟨d, hd, ?_, hch2.symm⟩, h3, h6, ?_, ?_⟩
  · rw [hch2]; exact hgi
  · intro h0
    subst h0
    have hh := (sealChain_chain sid manifest turns initialChainState).2
    have hgen : ∀ (l : List EpackRec) (h : 0 < l.length),
        (∀ r, l.head? = some r → r.prev_hash = "GENESIS") →
        (l.get ⟨0, h⟩).prev_hash = "GENESIS" := by
      intro l h hr
      cases l with
      | nil => simp at h
      | cons a t => exact hr a rfl
    exact hgen _ hi (fun r hr => by simpa [initialChainState] using hh r hr)
  · intro j hj hij
    subst hij
    have hc := (sealChain_chain sid manifest turns initialChainState).1
    rw [← engineChain, List.chain'_iff_get] at hc
    have := hc j (by omega)
    exact this

/-- **C2.**  Replaying any clean engine-produced chain of `N` turns (with no
injected route/safety functions, as `replay_chain` defaults) yields exactly
`N` results, every one with `governance_match = true`,
`chain_link_match = true` and `determinism_index = 100.0`.  The hypothesis
is that the build manifest carries a `manifest_hash`, which
`current_manifest()` always ensures. -/
theorem c2_clean_chain_replay (sid : String) (manifest : Json) (turns : List TurnCtx)
    (now : Int) (hm : manifestOk manifest = true) :
    (replayChain (engineChain sid manifest turns) none none now).length = turns.length ∧
    ∀ res ∈ replayChain (engineChain sid manifest turns) none none now,
      res.governance_match = true ∧ res.chain_link_match = true ∧
      res.determinism_index = 100 :=
  ⟨by rw [replayChain, replayChainGo_length, engineChain, sealChain_length],
   fun res hres =>
     replayChainGo_sealChain_good sid manifest hm now turns initialChainState none
       (Or.inl rfl) res hres⟩

/-! ## Concrete demonstration data -/

/-- A concrete build manifest of the shape `current_manifest()` returns. -/
def manifestDemo : Json :=
  .obj [("kernel_version", .str "v1.9.0"), ("manifest_hash", .str "f00d")]

def demoTurn1 : TurnCtx :=
  { userText := "hello", assistantText := "hi there",
    extra := .obj [("route", .obj [("seq", .arr [.str "TDM"]), ("why", .str "default")])],
    interaction := 1, profile := "A_STANDARD", pendingGate := {},
    tracesTail := .arr [], tsvSnapshot := .obj [],
    ts := 1700000001, decisionId := "uuid-1", createdAt := "2026-10-12T00:00:01Z" }

def demoTurn2 : TurnCtx :=
  { demoTurn1 with
      userText := "calc: 1+1", assistantText := "2.0",
      interaction := 2, ts := 1700000002, decisionId := "uuid-2" }

def demoTurn3 : TurnCtx :=
  { demoTurn1 with
      userText := "bye", assistantText := "bye now",
      interaction := 3, ts := 1700000003, decisionId := "uuid-3" }

def demoTurns : List TurnCtx := [demoTurn1, demoTurn2]

def demoTurns3 : List TurnCtx := [demoTurn1, demoTurn2, demoTurn3]

/-- Witness for C1 at a concrete two-turn session: the second record links to
the first record's hash and the first record's `prev_hash` is `"GENESIS"`. -/
theorem c1_seal_integrity_witness :
    ((engineChain "sess-demo" manifestDemo demoTurns).get
        ⟨1, by rw [engineChain, sealChain_length]; norm_num [demoTurns]⟩).prev_hash
      = ((engineChain "sess-demo" manifestDemo demoTurns).get
        ⟨0, by rw [engineChain, sealChain_length]; norm_num [demoTurns]⟩).hash ∧
    ((engineChain "sess-demo" manifestDemo demoTurns).get
        ⟨0, by rw [engineChain, sealChain_length]; norm_num [demoTurns]⟩).prev_hash
      = "GENESIS" :=
  ⟨(c1_seal_integrity "sess-demo" manifestDemo demoTurns 1
      (by rw [engineChain, sealChain_length]; norm_num [demoTurns])).2.2.2.2 0
      (by rw [engineChain, sealChain_length]; norm_num [demoTurns]) rfl,
   (c1_seal_integrity "sess-demo" manifestDemo demoTurns 0
      (by rw [engineChain, sealChain_length]; norm_num [demoTurns])).2.2.2.1 rfl⟩

/-- Witness for C2 at a concrete two-turn session. -/
theorem c2_clean_chain_replay_witness :
    (replayChain (engineChain "sess-demo2" manifestDemo demoTurns) none none 7).length = 2 ∧
    ∀ res ∈ replayChain (engineChain "sess-demo2" manifestDemo demoTurns) none none 7,
      res.governance_match = true ∧ res.chain_link_match = true ∧
      res.determinism_index = 100 :=
  ⟨(c2_clean_chain_replay "sess-demo2" manifestDemo demoTurns 7 (by decide)).1.trans rfl,
   (c2_clean_chain_replay "sess-demo2" manifestDemo demoTurns 7 (by decide)).2⟩

/-! ## C3: chain-tamper detection by `replay_chain` -/

/-- **C3, counterexample.**  The claim says deleting *any* one record of a
chain forces at least one `chain_link_match = false`.  Deleting the *last*
record of a genuine 3-turn engine chain leaves a valid 2-record prefix, and
`replay_chain` reports every `chain_link_match = true`. -/
theorem c3_tamper_counterexample :
    (engineChain "sess-c3" manifestDemo demoTurns3).length = 3 ∧
    ¬ ∃ res ∈ replayChain ((engineChain "sess-c3" manifestDemo demoTurns3).eraseIdx 2)
        none none 9, res.chain_link_match = false := by
  have hlen : (engineChain "sess-c3" manifestDemo demoTurns3).length = 3 := by
    rw [engineChain, sealChain_length]; rfl
  refine ⟨hlen, ?_⟩
  obtain ⟨a, b, c, habc⟩ := List.length_eq_three.mp hlen
  have hchain : List.Chain' linksOk (engineChain "sess-c3" manifestDemo demoTurns3) :=
    (sealChain_chain _ _ _ _).1
  rw [habc] at hchain
  rw [habc]
  rintro ⟨res, hres, hfalse⟩
  have hsub : List.Chain' linksOk ([a, b, c].eraseIdx 2) := by
    simp only [List.eraseIdx]
    simp only [List.chain'_cons, List.chain'_singleton, and_true] at hchain ⊢
    exact hchain.1
  have hall := (replayChain_link_all ([a, b, c].eraseIdx 2) none none 9).mpr hsub res hres
  rw [hall] at hfalse
  simp at hfalse

theorem nodup_pair_ne {α : Type} {l : List α} (h : l.Nodup) {a b : α}
    (hsub : [a, b].Sublist l) : a ≠ b := by
  have hn := h.sublist hsub
  simp [List.nodup_cons] at hn
  exact hn

/-- Adjacent elements of a chain-linked list are related. -/
theorem chain'_adj {α : Type} {R : α → α → Prop} {l xs ys : List α} {a b : α}
    (h : List.Chain' R l) (heq : l = xs ++ a :: b :: ys) : R a b := by
  have hinf : [a, b] <:+: l := ⟨xs, ys, by rw [heq]; simp⟩
  have := List.Chain'.infix h hinf
  simp only [List.chain'_cons, List.chain'_singleton, and_true] at this
  exact this

/-- In a valid chain with pairwise-distinct hashes none equal to
`"GENESIS"`, no record's `prev_hash` collides with its own hash or the hash
of any record at or after its position. -/
theorem prev_ne_hash_after (c : List EpackRec)
    (hvalid : List.Chain' linksOk c)
    (hgen : ∀ r, c.head? = some r → r.prev_hash = "GENESIS")
    (hnodup : (c.map EpackRec.hash).Nodup)
    (hG : ∀ r ∈ c, r.hash ≠ "GENESIS") :
    ∀ xs x rest, c = xs ++ x :: rest → ∀ y ∈ x :: rest, x.prev_hash ≠ y.hash := by
  intro xs x rest heq y hy
  rcases List.eq_nil_or_concat xs with hxs | ⟨xs0, w, hxs⟩
  · subst hxs
    simp only [List.nil_append] at heq
    have hx : x.prev_hash = "GENESIS" := hgen x (by rw [heq]; rfl)
    have hyc : y ∈ c := by rw [heq]; exact hy
    rw [hx]
    exact fun hcontra => hG y hyc hcontra.symm
  · subst hxs
    have heq2 : c = xs0 ++ w :: x :: rest := by
      rw [heq, List.concat_eq_append, List.append_assoc]; rfl
    have hadj : linksOk w x := chain'_adj hvalid heq2
    rw [hadj]
    have hmap : c.map EpackRec.hash
        = (xs0.map EpackRec.hash ++ [w.hash]) ++ (x :: rest).map EpackRec.hash := by
      rw [heq2]; simp
    rw [hmap] at hnodup
    have hdisj := (List.nodup_append.mp hnodup).2.2
    intro hcontra
    have hmem1 : w.hash ∈ List.map EpackRec.hash xs0 ++ [w.hash] := by simp
    have hmem2 : w.hash ∈ List.map EpackRec.hash (x :: rest) := by
      rw [hcontra]; exact List.mem_map_of_mem _ hy
    exact hdisj hmem1 hmem2

theorem chain_link_violation (c : List EpackRec) (now : Int)
    (hnot : ¬ List.Chain' linksOk c) :
    ∃ res ∈ replayChain c none none now, res.chain_link_match = false := by
  by_contra hcon
  push_neg at hcon
  exact hnot ((replayChain_link_all c none none now).mp
    (fun res hres => by
      have := hcon res hres
      cases hb : res.chain_link_match with
      | true => rfl
      | false => exact absurd hb this))

/-- **C3, amended.**  For every correctly linked chain whose record hashes
are pairwise distinct and never the literal `"GENESIS"` (true of real
SHA-256 chains short of a collision): deleting an *interior* record,
duplicating any record in place, or swapping two adjacent records causes at
least one `chain_link_match = false`; but deleting the *first* or the
*last* record yields a chain that `replay_chain` still reports as fully
linked — those two deletions (and, likewise, appending a correctly linked
forged record) are invisible to the chain-linkage step. -/
theorem c3_tamper_amended (now : Int) (c : List EpackRec)
    (hvalid : List.Chain' linksOk c)
    (hgen : ∀ r, c.head? = some r → r.prev_hash = "GENESIS")
    (hnodup : (c.map EpackRec.hash).Nodup)
    (hG : ∀ r ∈ c, r.hash ≠ "GENESIS") :
    (∀ xs x y z ws, c = xs ++ x :: y :: z :: ws →
       ∃ res ∈ replayChain (xs ++ x :: z :: ws) none none now,
         res.chain_link_match = false) ∧
    (∀ xs y ys, c = xs ++ y :: ys →
       ∃ res ∈ replayChain (xs ++ y :: y :: ys) none none now,
         res.chain_link_match = false) ∧
    (∀ xs x y ys, c = xs ++ x :: y :: ys →
       ∃ res ∈ replayChain (xs ++ y :: x :: ys) none none now,
         res.chain_link_match = false) ∧
    (∀ res ∈ replayChain c.dropLast none none now, res.chain_link_match = true) ∧
    (∀ res ∈ replayChain c.tail none none now, res.chain_link_match = true) := by
  refine ⟨?_, ?_, ?_, ?_, ?_⟩
  · -- deleting the interior record y
    intro xs x y z ws heq
    refine chain_link_violation _ now (fun hch => ?_)
    have h1 : linksOk x z := chain'_adj hch rfl
    have heq2 : c = (xs ++ [x]) ++ y :: z :: ws := by rw [heq]; simp
    have h2 : linksOk y z := chain'_adj hvalid heq2
    have h3 : x.hash ≠ y.hash := by
      refine nodup_pair_ne hnodup ?_
      have hm : c.map EpackRec.hash
          = xs.map EpackRec.hash ++ x.hash :: y.hash :: z.hash :: ws.map EpackRec.hash := by
        rw [heq]; simp
      rw [hm]
      refine List.Sublist.trans ?_ (List.sublist_append_right _ _)
      exact ((List.nil_sublist _).cons₂ _).cons₂ _
    rw [linksOk] at h1 h2
    exact h3 (by rw [← h1, h2])
  · -- duplicating y in place
    intro xs y ys heq
    refine chain_link_violation _ now (fun hch => ?_)
    have h1 : linksOk y y := chain'_adj hch rfl
    have h2 := prev_ne_hash_after c hvalid hgen hnodup hG xs y ys heq y (by simp)
    exact h2 h1
  · -- swapping the adjacent records x and y
    intro xs x y ys heq
    refine chain_link_violation _ now (fun hch => ?_)
    have h1 : linksOk y x := chain'_adj hch rfl
    have h2 := prev_ne_hash_after c hvalid hgen hnodup hG xs x (y :: ys) heq y (by simp)
    exact h2 h1
  · -- deleting the last record: still fully linked
    exact (replayChain_link_all _ none none now).mpr
      ( List.Chain'.prefix hvalid ( List.dropLast_prefix c))
  · -- deleting the first record: still fully linked
    exact (replayChain_link_all _ none none now).mpr
      (hvalid.suffix (List.tail_suffix c))

/-- Hand-made three-record chain with distinct hashes for the C3 witness. -/
def recA : EpackRec :=
  { seq := 1, ts := 0, prev_hash := "GENESIS", payload_hash := "pa", hash := "ha",
    payload := .obj [] }

def recB : EpackRec :=
  { seq := 2, ts := 0, prev_hash := "ha", payload_hash := "pb", hash := "hb",
    payload := .obj [] }

def recC : EpackRec :=
  { seq := 3, ts := 0, prev_hash := "hb", payload_hash := "pc", hash := "hc",
    payload := .obj [] }

/-- Witness for the amended C3 on a concrete three-record chain: interior
deletion, in-place duplication and adjacent swap are each flagged. -/
theorem c3_tamper_amended_witness :
    (∃ res ∈ replayChain [recA, recC] none none 0, res.chain_link_match = false) ∧
    (∃ res ∈ replayChain [recA, recA, recB, recC] none none 0, res.chain_link_match = false) ∧
    (∃ res ∈ replayChain [recB, recA, recC] none none 0, res.chain_link_match = false) :=
  have h := c3_tamper_amended 0 [recA, recB, recC]
    (by constructor
        · rfl
        · constructor
          · rfl
          · exact List.chain'_singleton _)
    (by intro r hr; injection hr with h2; rw [← h2]; rfl)
    (by decide)
    (by decide)
  ⟨h.1 [] recA recB recC [] rfl,
   h.2.1 [] recA [recB, recC] rfl,
   h.2.2.1 [] recA recB [recC] rfl⟩

/-! ## C4: routing rules -/

/-- **C4.**  `route_aru_sequence` decides exactly by the five spec rules in
first-match-wins order: for every `(InputVector, SessionState)` pair the
source translation and the spec-worded rule list agree.  Purity and
functionality (same input, same output) hold by construction: the
translation consumes only its two arguments, faithfully to the source,
which reads nothing but `iv` and `sess`. -/
theorem c4_routing_first_match (iv : InputVector) (sess : SessionState) :
    route_aru_sequence iv sess = routeSpecRules iv sess := by
  unfold route_aru_sequence routeSpecRules
  cases hs : iv.safe <;>
    cases hr : iv.requires_reflect <;>
      cases hrc : sess.reflect_confirmed <;>
        cases hsc : iv.requires_scaffold <;>
          cases hsa : sess.scaffold_approved <;>
            cases hd : iv.domain <;>
              cases hhr : sess.tsv.high_stakes_ready <;>
                simp_all

/-! ## C5: TSI tracker (`ecosphere.meta_validation.tsi_tracker`)

Floats are modelled as `ℚ`.  `math.exp(-λ·age/60)` is the one transcendental
the tracker uses; the model takes the decay curve as an explicit function
parameter `expFn` (standing for `math.exp`), so that theorems can assume
exactly the properties the real exponential has (positivity, `exp 0 = 1`)
and concrete evaluations can instantiate it at the ages they use. -/

/-- `tsi_tracker.InteractionOutcome`. -/
structure InteractionOutcome where
  timestamp : ℚ
  status : String
  validator_agreement : ℚ
  latency_ms : Int := 0
  challenger_fired : Bool := false
  recovery_active : Bool := false
deriving DecidableEq

/-- `tsi_tracker.TSISignal`. -/
structure TSISignal where
  tsi_current : ℚ
  tsi_forecast_15m : ℚ
  window_size : Nat
  pass_rate : ℚ
  refuse_rate : ℚ
  error_rate : ℚ
  avg_agreement : ℚ
  trend_slope : ℚ

/-- The `TSITracker.__init__` parameters (defaults as in the source; the
constructor applies `max(5, window_size)`). -/
structure TSIConfig where
  window_size : Nat := 20
  decay_lambda : ℚ := 1/10
  agreement_weight : ℚ := 1/5
  latency_penalty_per_s : ℚ := 1/50
  challenger_penalty : ℚ := 3/100

/-- `TSITracker.record`: a `deque(maxlen=max(5, window_size))` append. -/
def tsiRecord (cfg : TSIConfig) (buffer : List InteractionOutcome)
    (o : InteractionOutcome) : List InteractionOutcome :=
  let b := buffer ++ [o]
  b.drop (b.length - max 5 cfg.window_size)

/-- `TSITracker.STATUS_BASE.get(status, 0.50)`. -/
def statusBase (st : String) : ℚ :=
  if st = "PASS" then 9/10
  else if st = "WARN" then 7/10
  else if st = "REFUSE" then 9/20
  else if st = "ERROR" then 3/10
  else 1/2

/-- The per-outcome `(weight, score)` pair of the `signal()` loop. -/
def tsiScore (cfg : TSIConfig) (expFn : ℚ → ℚ) (now : ℚ)
    (o : InteractionOutcome) : ℚ × ℚ :=
  let age := max 0 (now - o.timestamp)
  let weight := expFn (-(cfg.decay_lambda * age / 60))
  let base := statusBase o.status
  let agreementMod := cfg.agreement_weight * (o.validator_agreement - 1/2)
  let latPen := cfg.latency_penalty_per_s * ((o.latency_ms : ℚ) / 1000)
  let chPen := if o.challenger_fired then cfg.challenger_penalty else 0
  (weight, max 0 (min 1 (base + agreementMod - latPen - chPen)))

/-- `TSITracker.signal()`, over the current buffer and wall clock.  The
status-count dictionary becomes per-status filters; the rates, averages and
rounding follow the source line by line. -/
def tsiSignal (cfg : TSIConfig) (expFn : ℚ → ℚ) (buffer : List InteractionOutcome)
    (now : ℚ) : TSISignal :=
  if buffer.isEmpty then
    { tsi_current := 82/100, tsi_forecast_15m := 8/10, window_size := 0,
      pass_rate := 0, refuse_rate := 0, error_rate := 0,
      avg_agreement := 0, trend_slope := 0 }
  else
    let scores := buffer.map (tsiScore cfg expFn now)
    let totalWeight := (scores.map (·.1)).sum
    let tsi := if 0 < totalWeight
               then (scores.map (fun ws => ws.1 * ws.2)).sum / totalWeight
               else 1/2
    let n := buffer.length
    let passRate := ((buffer.filter (fun o => o.status = "PASS")).length : ℚ) / n
    let refuseRate := ((buffer.filter (fun o => o.status = "REFUSE")).length : ℚ) / n
    let errorRate := ((buffer.filter (fun o => o.status = "ERROR")).length : ℚ) / n
    let avgAgreement := (buffer.map (·.validator_agreement)).sum / n
    let trendN := min 10 scores.length
    let slope :=
      if 3 ≤ trendN then
        let recent := (scores.drop (scores.length - trendN)).map (·.2)
        let xMean := ((trendN : ℚ) - 1) / 2
        let yMean := recent.sum / trendN
        let num := ((List.range trendN).map
          (fun (i : Nat) => ((i : ℚ) - xMean) * (recent.getD i 0 - yMean))).sum
        let den := ((List.range trendN).map (fun (i : Nat) => ((i : ℚ) - xMean) ^ 2)).sum
        if 0 < den then num / den else 0
      else 0
    let forecast := max 0 (min 1 (tsi + slope * 2))
    { tsi_current := pyRoundN 4 tsi,
      tsi_forecast_15m := pyRoundN 4 forecast,
      window_size := n,
      pass_rate := pyRoundN 3 passRate,
      refuse_rate := pyRoundN 3 refuseRate,
      error_rate := pyRoundN 3 errorRate,
      avg_agreement := pyRoundN 3 avgAgreement,
      trend_slope := pyRoundN 5 slope }

theorem pyRoundInt_bounds {q : ℚ} {a b : ℤ} (ha : (a : ℚ) ≤ q) (hb : q ≤ (b : ℚ)) :
    a ≤ pyRoundInt q ∧ pyRoundInt q ≤ b := by
  have hfa : a ≤ ⌊q⌋ := Int.le_floor.mpr ha
  have hfb : ⌊q⌋ ≤ b := by
    have := Int.floor_le_floor hb
    simpa using this
  have hflt : ∀ h : (1 : ℚ)/2 ≤ q - ⌊q⌋, ⌊q⌋ + 1 ≤ b := by
    intro h
    by_contra hcon
    push_neg at hcon
    have hbf : b ≤ ⌊q⌋ := by omega
    have : (b : ℚ) ≤ (⌊q⌋ : ℚ) := by exact_mod_cast hbf
    have hq : q - ⌊q⌋ ≤ 0 := by linarith
    linarith
  unfold pyRoundInt
  split_ifs with h1 h2 h3
  · exact ⟨hfa, hfb⟩
  · exact ⟨by omega, hflt h2.le⟩
  · exact ⟨hfa, hfb⟩
  · exact ⟨by omega, hflt (by linarith [not_lt.mp h1])⟩

theorem pyRoundN_unit {q : ℚ} (n : Nat) (h0 : 0 ≤ q) (h1 : q ≤ 1) :
    0 ≤ pyRoundN n q ∧ pyRoundN n q ≤ 1 := by
  have hp : (0 : ℚ) < 10 ^ n := by positivity
  have hb := pyRoundInt_bounds (q := q * 10 ^ n) (a := 0) (b := 10 ^ n)
    (by simpa using mul_nonneg h0 hp.le)
    (by push_cast
        calc q * 10 ^ n ≤ 1 * 10 ^ n := mul_le_mul_of_nonneg_right h1 hp.le
        _ = 10 ^ n := one_mul _)
  unfold pyRoundN
  constructor
  · apply div_nonneg _ hp.le
    exact_mod_cast hb.1
  · rw [div_le_one hp]
    calc (pyRoundInt (q * 10 ^ n) : ℚ) ≤ ((10 ^ n : ℤ) : ℚ) := by exact_mod_cast hb.2
    _ = 10 ^ n := by push_cast; rfl

theorem tsiScore_bounds (cfg : TSIConfig) (expFn : ℚ → ℚ) (hpos : ∀ x, 0 < expFn x)
    (now : ℚ) (o : InteractionOutcome) :
    0 < (tsiScore cfg expFn now o).1 ∧
    0 ≤ (tsiScore cfg expFn now o).2 ∧ (tsiScore cfg expFn now o).2 ≤ 1 := by
  refine ⟨hpos _, le_max_left _ _, ?_⟩
  exact max_le (by norm_num) (min_le_left _ _)

/-- **C5, amended.**  For every outcome buffer and clock, and every positive
decay curve (as `math.exp` is), `signal()` returns `tsi_current ∈ [0, 1]`
and `tsi_forecast_15m ∈ [0, 1]`; being exact rationals, the values are
never NaN.  (The further claim that adjacent samples never differ by more
than 0.40 is false: see the counterexample.) -/
theorem c5_tsi_bounds_amended (cfg : TSIConfig) (expFn : ℚ → ℚ)
    (hpos : ∀ x, 0 < expFn x) (buffer : List InteractionOutcome) (now : ℚ) :
    (0 ≤ (tsiSignal cfg expFn buffer now).tsi_current ∧
     (tsiSignal cfg expFn buffer now).tsi_current ≤ 1) ∧
    (0 ≤ (tsiSignal cfg expFn buffer now).tsi_forecast_15m ∧
     (tsiSignal cfg expFn buffer now).tsi_forecast_15m ≤ 1) := by
  cases hbuf : buffer.isEmpty with
  | true => simp [tsiSignal, hbuf]; norm_num
  | false =>
      have hne : buffer ≠ [] := by
        intro h; rw [h] at hbuf; simp at hbuf
      have hw : ∀ p ∈ buffer.map (tsiScore cfg expFn now), 0 < p.1 ∧ 0 ≤ p.2 ∧ p.2 ≤ 1 := by
        intro p hp
        obtain ⟨o, _, ho⟩ := List.mem_map.mp hp
        rw [← ho]
        exact tsiScore_bounds cfg expFn hpos now o
      have htw : 0 < ((buffer.map (tsiScore cfg expFn now)).map (·.1)).sum := by
        apply List.sum_pos
        · intro x hx
          obtain ⟨p, hp, hpx⟩ := List.mem_map.mp hx
          rw [← hpx]; exact (hw p hp).1
        · simp [hne]
      have hnum0 : 0 ≤ ((buffer.map (tsiScore cfg expFn now)).map (fun ws => ws.1 * ws.2)).sum := by
        apply List.sum_nonneg
        intro x hx
        obtain ⟨p, hp, hpx⟩ := List.mem_map.mp hx
        rw [← hpx]
        exact mul_nonneg (hw p hp).1.le (hw p hp).2.1
      have hnum1 : ((buffer.map (tsiScore cfg expFn now)).map (fun ws => ws.1 * ws.2)).sum
          ≤ ((buffer.map (tsiScore cfg expFn now)).map (·.1)).sum := by
        apply List.sum_le_sum
        intro p hp
        calc p.1 * p.2 ≤ p.1 * 1 := by
              exact mul_le_mul_of_nonneg_left (hw p hp).2.2 (hw p hp).1.le
        _ = p.1 := mul_one _
      have htsi : 0 ≤ ((buffer.map (tsiScore cfg expFn now)).map (fun ws => ws.1 * ws.2)).sum
            / ((buffer.map (tsiScore cfg expFn now)).map (·.1)).sum ∧
          ((buffer.map (tsiScore cfg expFn now)).map (fun ws => ws.1 * ws.2)).sum
            / ((buffer.map (tsiScore cfg expFn now)).map (·.1)).sum ≤ 1 :=
        ⟨div_nonneg hnum0 htw.le, (div_le_one htw).mpr hnum1⟩
      simp only [tsiSignal, hbuf, Bool.false_eq_true, if_false, if_pos htw]
      refine ⟨pyRoundN_unit 4 htsi.1 htsi.2, pyRoundN_unit 4 ?_ ?_⟩
      · exact le_max_left _ _
      · exact max_le (by norm_num) (min_le_left _ _)

/-- First outcome of the jump scenario: a perfect PASS. -/
def cexOut1 : InteractionOutcome :=
  { timestamp := 0, status := "PASS", validator_agreement := 1 }

/-- Second outcome: an ERROR with zero agreement and 10 s latency. -/
def cexOut2 : InteractionOutcome :=
  { timestamp := 0, status := "ERROR", validator_agreement := 0, latency_ms := 10000 }

/-- **C5, counterexample.**  With the default tracker parameters, the signal
after recording `cexOut1` has `tsi_current = 1.0`, and the signal after
additionally recording `cexOut2` has `tsi_current = 0.5`: adjacent samples
jump by `0.5 > 0.40`, refuting the no-impossible-jump clause.  Every age in
the scenario is `0`, where `math.exp(-λ·0/60) = exp 0 = 1`, so the constant
decay curve used here agrees with the source's `math.exp` at every point
evaluated. -/
theorem c5_tsi_jump_counterexample :
    tsiRecord {} (tsiRecord {} [] cexOut1) cexOut2 = [cexOut1, cexOut2] ∧
    (tsiSignal {} (fun _ => 1) (tsiRecord {} [] cexOut1) 0).tsi_current = 1 ∧
    (tsiSignal {} (fun _ => 1) (tsiRecord {} (tsiRecord {} [] cexOut1) cexOut2) 0).tsi_current
      = 1/2 ∧
    ¬ ((1 : ℚ) - 1/2 ≤ 2/5) := by
  have hrec1 : tsiRecord {} [] cexOut1 = [cexOut1] := by decide
  have hrec2 : tsiRecord {} (tsiRecord {} [] cexOut1) cexOut2 = [cexOut1, cexOut2] := by decide
  have hround1 : pyRoundN 4 (1 : ℚ) = 1 := by
    have := pyRoundN_natCast 4 1
    simpa using this
  have hround2 : pyRoundN 4 ((1 : ℚ)/2) = 1/2 := by
    have hk : ((1 : ℚ)/2) * 10 ^ 4 = ((5000 : ℤ) : ℚ) := by norm_num
    have hint : pyRoundInt (((5000 : ℤ) : ℚ)) = 5000 := by
      unfold pyRoundInt
      rw [Int.floor_intCast, sub_self]
      norm_num
    unfold pyRoundN
    rw [hk, hint]
    norm_num
  have hsbP : statusBase "PASS" = 9/10 := rfl
  have hsbE : statusBase "ERROR" = 3/10 := rfl
  have h1 : (tsiSignal {} (fun _ => 1) [cexOut1] 0).tsi_current = pyRoundN 4 1 := by
    norm_num [tsiSignal, tsiScore, cexOut1, hsbP, max_def, min_def]
  have h2 : (tsiSignal {} (fun _ => 1) [cexOut1, cexOut2] 0).tsi_current
      = pyRoundN 4 (1/2) := by
    norm_num [tsiSignal, tsiScore, cexOut1, cexOut2, hsbP, hsbE, max_def, min_def]
  refine ⟨hrec2, ?_, ?_, by norm_num⟩
  · rw [hrec1, h1, hround1]
  · rw [hrec2, h2, hround2]

/-- Witness for the amended C5 at a concrete buffer and the constant-one
decay curve (admissible: it is everywhere positive). -/
theorem c5_tsi_bounds_amended_witness :
    (0 ≤ (tsiSignal {} (fun _ => 1) [cexOut2] 3).tsi_current ∧
     (tsiSignal {} (fun _ => 1) [cexOut2] 3).tsi_current ≤ 1) ∧
    (0 ≤ (tsiSignal {} (fun _ => 1) [cexOut2] 3).tsi_forecast_15m ∧
     (tsiSignal {} (fun _ => 1) [cexOut2] 3).tsi_forecast_15m ≤ 1) :=
  c5_tsi_bounds_amended {} (fun _ => 1) (fun _ => by norm_num) [cexOut2] 3

/-! ## C6: circuit breaker (`ecosphere.meta_validation.circuit_breaker`)

Timestamps are `ℚ` (Python floats); `now` parameters replace `time.time()`.
The per-plan breaker dict is an insertion-ordered association list, and the
Python set returned by `excluded_plans` is the list of blocked names (only
membership is ever consulted). -/

/-- `circuit_breaker.BreakerConfig`. -/
structure BreakerConfig where
  failure_threshold : Int := 3
  cooldown_seconds : ℚ := 120
  half_open_max_attempts : Int := 1

/-- `circuit_breaker.PlanBreaker`. -/
structure PlanBreaker where
  plan_name : String
  consecutive_failures : Int := 0
  state : String := "CLOSED"
  last_failure_ts : ℚ := 0
  last_success_ts : ℚ := 0
  half_open_attempts : Int := 0
  total_failures : Int := 0
  total_successes : Int := 0
deriving DecidableEq

/-- `circuit_breaker.CircuitBreaker` (config plus the per-plan table). -/
structure CircuitBreaker where
  config : BreakerConfig
  breakers : List (String × PlanBreaker) := []

/-- `CircuitBreaker._get`: existing entry or a fresh CLOSED breaker. -/
def cbGet (cb : CircuitBreaker) (plan : String) : PlanBreaker :=
  match cb.breakers.find? (fun kv => kv.1 = plan) with
  | some kv => kv.2
  | none => { plan_name := plan }

/-- Store an updated per-plan breaker (the dict write-back of the mutations
Python performs through the `_get` reference). -/
def cbSet (cb : CircuitBreaker) (plan : String) (b : PlanBreaker) : CircuitBreaker :=
  if cb.breakers.any (fun kv => kv.1 = plan) then
    { cb with breakers := cb.breakers.map (fun kv => if kv.1 = plan then (plan, b) else kv) }
  else
    { cb with breakers := cb.breakers ++ [(plan, b)] }

/-- `CircuitBreaker._maybe_transition`: OPEN → HALF_OPEN once the cooldown
has elapsed since the last failure. -/
def maybeTransition (cfg : BreakerConfig) (b : PlanBreaker) (now : ℚ) : PlanBreaker :=
  if b.state = "OPEN" ∧ now - b.last_failure_ts ≥ cfg.cooldown_seconds then
    { b with state := "HALF_OPEN", half_open_attempts := 0 }
  else b

/-- `CircuitBreaker.excluded_plans`: transition every breaker, then collect
the OPEN ones and the probe-exhausted HALF_OPEN ones. -/
def excludedPlans (cb : CircuitBreaker) (now : ℚ) : List String × CircuitBreaker :=
  let updated := cb.breakers.map (fun kv => (kv.1, maybeTransition cb.config kv.2 now))
  let blocked := (updated.filter (fun kv =>
    kv.2.state = "OPEN" ∨
    (kv.2.state = "HALF_OPEN" ∧ kv.2.half_open_attempts ≥ cb.config.half_open_max_attempts))).map (·.1)
  (blocked, { cb with breakers := updated })

/-- `CircuitBreaker.record_success`. -/
def recordSuccess (cb : CircuitBreaker) (plan : String) (now : ℚ) : CircuitBreaker :=
  let b := cbGet cb plan
  cbSet cb plan
    { b with consecutive_failures := 0, state := "CLOSED", last_success_ts := now,
             half_open_attempts := 0, total_successes := b.total_successes + 1 }

/-- `CircuitBreaker.record_failure`. -/
def recordFailure (cb : CircuitBreaker) (plan : String) (now : ℚ) : CircuitBreaker :=
  let b := cbGet cb plan
  let b1 := { b with consecutive_failures := b.consecutive_failures + 1,
                     total_failures := b.total_failures + 1, last_failure_ts := now }
  let b2 :=
    if b1.state = "HALF_OPEN" then { b1 with state := "OPEN", half_open_attempts := 0 }
    else if b1.consecutive_failures ≥ cb.config.failure_threshold then { b1 with state := "OPEN" }
    else b1
  cbSet cb plan b2

/-- `CircuitBreaker.record_half_open_attempt`. -/
def recordHalfOpenAttempt (cb : CircuitBreaker) (plan : String) : CircuitBreaker :=
  let b := cbGet cb plan
  if b.state = "HALF_OPEN" then
    cbSet cb plan { b with half_open_attempts := b.half_open_attempts + 1 }
  else cb

/-- The breaker record the C6 scenario expects after the trip (state `st`,
last failure at `t`). -/
def pbTripped (plan st : String) (t : ℚ) : PlanBreaker :=
  { plan_name := plan
    consecutive_failures := 2
    state := st
    last_failure_ts := t
    last_success_ts := 0
    half_open_attempts := 0
    total_failures := 2
    total_successes := 0 }

/-- **C6.**  With `failure_threshold = 2`: two consecutive `record_failure`
calls trip the plan to OPEN and `excluded_plans()` (queried before the
cooldown has elapsed) contains it; once `cooldown_seconds` have elapsed
since the last failure, `excluded_plans()` no longer contains it and the
plan's state is HALF_OPEN; a further `record_failure` from HALF_OPEN snaps
back to OPEN, while a `record_success` returns the plan to CLOSED and
resets its consecutive-failure count. -/
theorem c6_circuit_breaker (plan : String) (cd t1 t2 tq1 tq2 t4 t5 : ℚ)
    (hq1 : tq1 - t2 < cd) (hq2 : tq2 - t2 ≥ cd) :
    let cfg : BreakerConfig := { failure_threshold := 2, cooldown_seconds := cd }
    let cb2 := recordFailure (recordFailure { config := cfg } plan t1) plan t2
    let cb3 := (excludedPlans cb2 tq2).2
    (cbGet cb2 plan).state = "OPEN" ∧
    plan ∈ (excludedPlans cb2 tq1).1 ∧
    plan ∉ (excludedPlans cb2 tq2).1 ∧
    (cbGet cb3 plan).state = "HALF_OPEN" ∧
    (cbGet (recordFailure cb3 plan t4) plan).state = "OPEN" ∧
    (cbGet (recordSuccess cb3 plan t5) plan).state = "CLOSED" ∧
    (cbGet (recordSuccess cb3 plan t5) plan).consecutive_failures = 0 := by
  intro cfg cb2 cb3
  have hn1 : ¬ (tq1 - t2 ≥ cd) := not_le.mpr hq1
  have hCH : ("CLOSED" : String) ≠ "HALF_OPEN" := by decide
  have hHO : ("HALF_OPEN" : String) ≠ "OPEN" := by decide
  have hcb2 : cb2 = { config := cfg, breakers := [(plan, pbTripped plan "OPEN" t2)] } := by
    show recordFailure (recordFailure { config := cfg } plan t1) plan t2 = _
    simp [recordFailure, cbGet, cbSet, cfg, pbTripped, hCH]
  have hcb3 : cb3 = { config := cfg, breakers := [(plan, pbTripped plan "HALF_OPEN" t2)] } := by
    show (excludedPlans cb2 tq2).2 = _
    rw [hcb2]
    simp [excludedPlans, maybeTransition, hq2, pbTripped]
  refine ⟨?_, ?_, ?_, ?_, ?_, ?_, ?_⟩
  · rw [hcb2]; simp [cbGet, pbTripped]
  · rw [hcb2]; simp [excludedPlans, maybeTransition, hn1, pbTripped]
  · rw [hcb2]; simp [excludedPlans, maybeTransition, hq2, pbTripped, hHO]
  · rw [hcb3]; simp [cbGet, pbTripped]
  · rw [hcb3]; simp [recordFailure, cbGet, cbSet, pbTripped]
  · rw [hcb3]; simp [recordSuccess, cbGet, cbSet, pbTripped]
  · rw [hcb3]; simp [recordSuccess, cbGet, cbSet, pbTripped]

/-- Witness for C6: `plan_a` with cooldown 120 s, failures at 0 s and 10 s,
queries at 50 s (still blocked) and 130 s (cooldown elapsed). -/
theorem c6_circuit_breaker_witness :
    let cfg : BreakerConfig := { failure_threshold := 2, cooldown_seconds := 120 }
    let cb2 := recordFailure (recordFailure { config := cfg } "plan_a" 0) "plan_a" 10
    let cb3 := (excludedPlans cb2 130).2
    (cbGet cb2 "plan_a").state = "OPEN" ∧
    "plan_a" ∈ (excludedPlans cb2 50).1 ∧
    "plan_a" ∉ (excludedPlans cb2 130).1 ∧
    (cbGet cb3 "plan_a").state = "HALF_OPEN" ∧
    (cbGet (recordFailure cb3 "plan_a" 200) "plan_a").state = "OPEN" ∧
    (cbGet (recordSuccess cb3 "plan_a" 201) "plan_a").state = "CLOSED" ∧
    (cbGet (recordSuccess cb3 "plan_a" 201) "plan_a").consecutive_failures = 0 :=
  c6_circuit_breaker "plan_a" 120 0 10 50 130 200 201 (by norm_num) (by norm_num)

/-! ## C7/C10: gate lifecycle (`ecosphere.kernel.gates`)

The gate module's regular expressions are fixed word alternations with `\b`
boundaries, a `confirm|approve \s+ hex{4,10}` token pattern, and
`step|phase \s* digits` references.  Each is implemented directly below
over character lists with Python `\w`/`\s` classes (ASCII, which is all the
gate texts contain); greedy-with-backtracking corner cases of the token
pattern collapse to "the maximal hex run must have length 4–10 and end at a
word boundary", since every shorter attempt still ends inside the run. -/

def isWordChar (c : Char) : Bool := c.isAlphanum || c = Char.ofNat 95

def isPySpace (c : Char) : Bool :=
  c = ' ' || c.toNat = 9 || c.toNat = 10 || c.toNat = 13 || c.toNat = 11 || c.toNat = 12

def isHexChar (c : Char) : Bool :=
  (48 ≤ c.toNat && c.toNat ≤ 57) || (97 ≤ c.toNat && c.toNat ≤ 102)

def boundaryBefore (t : List Char) (i : Nat) : Bool :=
  i = 0 || !isWordChar (t.getD (i - 1) ' ')

def boundaryAfter (t : List Char) (j : Nat) : Bool :=
  t.length ≤ j || !isWordChar (t.getD j ' ')

/-- `\b<phrase>\b` matches at position `i` (the phrases all begin and end
with word characters, so `\b` reduces to the neighbour checks). -/
def phraseAt (t w : List Char) (i : Nat) : Bool :=
  decide ((t.drop i).take w.length = w) && boundaryBefore t i && boundaryAfter t (i + w.length)

/-- `re.search(r"\b(w₁|w₂|…)\b", t)` as a Boolean. -/
def wordSearch (ws : List String) (t : String) : Bool :=
  let tc := t.data
  (List.range (tc.length + 1)).any fun i => ws.any fun w => phraseAt tc w.data i

/-- One attempt of `\b<kw>\s+([0-9a-f]{4,10})\b` at position `i`; returns
the captured hex group. -/
def tokenAt (tc kw : List Char) (i : Nat) : Option (List Char) :=
  if boundaryBefore tc i ∧ (tc.drop i).take kw.length = kw then
    let j := i + kw.length
    let spaces := ((tc.drop j).takeWhile isPySpace).length
    if spaces = 0 then none
    else
      let k := j + spaces
      let hexRun := (tc.drop k).takeWhile isHexChar
      if 4 ≤ hexRun.length ∧ hexRun.length ≤ 10 ∧ boundaryAfter tc (k + hexRun.length) = true
      then some hexRun else none
  else none

/-- `CONFIRM_TOKEN.search` / `APPROVE_TOKEN.search`: leftmost match. -/
def tokenSearch (kw : String) (t : String) : Option String :=
  let tc := t.data
  ((List.range (tc.length + 1)).findSome? fun i => tokenAt tc kw.data i).map String.mk

/-- One attempt of `\b<kw>\s*(\d+)\b` at position `i`; returns the number. -/
def stepRefAt (tc kw : List Char) (i : Nat) : Option Nat :=
  if boundaryBefore tc i ∧ (tc.drop i).take kw.length = kw then
    let j := i + kw.length
    let spaces := ((tc.drop j).takeWhile isPySpace).length
    let k := j + spaces
    let digits := (tc.drop k).takeWhile Char.isDigit
    if 1 ≤ digits.length ∧ boundaryAfter tc (k + digits.length) = true then
      some ((String.mk digits).toNat!)
    else none
  else none

def stepPhraseSearch (kw : String) (t : String) : Bool :=
  let tc := t.data
  (List.range (tc.length + 1)).any fun i => (stepRefAt tc kw.data i).isSome

/-- `STEP_REF.search(text)` over the pattern `\b(step|phase)\s*(\d+)\b`
(case-insensitive, handled by lowering the text first). -/
def stepRefSearch (t : String) : Option Nat :=
  let tc := t.data
  (List.range (tc.length + 1)).findSome? fun i =>
    match stepRefAt tc "step".data i with
    | some n => some n
    | none => stepRefAt tc "phase".data i

/-- `str.strip()` (whitespace both ends). -/
def pyStrip (s : String) : String :=
  String.mk (((s.data.dropWhile isPySpace).reverse.dropWhile isPySpace).reverse)

/-- `str.lower()` (the gate texts are ASCII). -/
def pyLower (s : String) : String := String.mk (s.data.map Char.toLower)

def CONFIRM_YES_words : List String :=
  ["yes", "yep", "yeah", "correct", "confirmed", "confirm", "sounds good", "that works"]

def CONFIRM_NO_words : List String :=
  ["no", "nope", "incorrect", "not that", "revise", "change"]

def APPROVE_YES_words : List String :=
  ["approve", "approved", "go ahead", "proceed", "greenlight", "ok to proceed"]

def APPROVE_NO_words : List String :=
  ["reject", "not approved", "don\x27t proceed", "revise plan", "change plan"]

/-- The single-word members of `REVISION_TRIGGERS`. -/
def revisionTriggerWords : List String :=
  ["but", "except", "however", "change", "revise", "modify", "adjust",
   "instead", "swap", "replace", "add", "remove", "omit"]

/-- `gates.has_revision_intent`. -/
def hasRevisionIntent (text : String) : Bool :=
  let t := pyLower text
  wordSearch revisionTriggerWords t || stepPhraseSearch "step" t || stepPhraseSearch "phase" t

/-- `gates._extract_token`. -/
def extractToken (text : String) (kind : String) : String :=
  let t := pyLower (pyStrip text)
  match tokenSearch (if kind = "confirm" then "confirm" else "approve") t with
  | some tok => tok
  | none => ""

/-- `gates._binding_decision`: `(accepted, status, provided_token)`. -/
def bindingDecision (userText expectedToken : String) (req : Bool) (kind : String) :
    Bool × String × String :=
  let t := pyLower (pyStrip userText)
  let rejectWords := if kind = "confirm" then CONFIRM_NO_words else APPROVE_NO_words
  let acceptWords := if kind = "confirm" then CONFIRM_YES_words else APPROVE_YES_words
  if wordSearch rejectWords t then (false, "rejected", "")
  else
    let provided := extractToken userText kind
    if provided ≠ "" then
      if provided = expectedToken then (true, "bound_ok", provided)
      else (false, "token_mismatch", provided)
    else if req then
      if wordSearch acceptWords t then (false, "missing_token", "")
      else (false, "unknown", "")
    else if wordSearch acceptWords t then (true, "unbound_ok", "")
    else (false, "unknown", "")

/-- `gates._nonce_already_used`. -/
def nonceAlreadyUsed (sess : SessionState) : Bool :=
  sess.pending_gate.nonce ≠ "" && sess.pending_gate.consumed_nonces.contains sess.pending_gate.nonce

/-- `gates._consume_nonce` (`set.add`: no-op when already present). -/
def consumeNonce (sess : SessionState) : SessionState :=
  let n := sess.pending_gate.nonce
  if n ≠ "" then
    { sess with pending_gate := { sess.pending_gate with
        consumed_nonces :=
          if sess.pending_gate.consumed_nonces.contains n
          then sess.pending_gate.consumed_nonces
          else sess.pending_gate.consumed_nonces ++ [n] } }
  else sess

/-- `gates.clear_pending` (note: `consumed_nonces` is *not* cleared). -/
def clearPending (sess : SessionState) (reason : String) : SessionState :=
  let s1 := { sess with pending_gate := { sess.pending_gate with
      gate := "NONE", payload := .obj [], payload_hash := "", confirm_token := "",
      nonce := "", require_token_binding := false, prompt_cache_hash := "" } }
  if reason = "reset" then { s1 with reflect_confirmed := false, scaffold_approved := false }
  else s1

/-- `gates.trace`. -/
def traceAdd (sess : SessionState) (before after event : String) (meta : Json) : SessionState :=
  { sess with traces := sess.traces ++
      [{ state_before := before, state_after := after, event := event,
         gate := sess.pending_gate.gate, interaction := sess.interaction_count, meta := meta }] }

/-- `session_secret.derive_scoped`. -/
def deriveScoped (sid secret purpose : String) : String :=
  strTake (stableHash (.obj [("session_id", .str sid), ("session_secret", .str secret),
    ("purpose", .str purpose)])) 16

/-- `gates._session_scope`. -/
def sessionScope (sess : SessionState) : String :=
  if sess.sessionSecret ≠ "" then deriveScoped sess.session_id sess.sessionSecret "gate_scope"
  else "noscope"

/-- `gates.make_gate_nonce`. -/
def makeGateNonce (sid : String) (interaction : Nat) (gate ph scope : String) : String :=
  strTake (stableHash (.obj [("session_id", .str sid), ("interaction", .num interaction),
    ("gate", .str gate), ("payload_hash", .str ph), ("session_scope", .str scope)])) 10

/-- `gates._timeout_for_profile`. -/
def timeoutForProfile (p : String) : Nat :=
  if p = "A_FAST" then 2 else if p = "A_HIGH_ASSURANCE" then 5 else 3

/-- `gates._token_length_for_profile` with the default `Settings` values
(`TOKENLEN_FAST=4`, `TOKENLEN_STANDARD=4`, `TOKENLEN_HIGH=6`). -/
def tokenLengthForProfile (p : String) : Nat :=
  if p = "A_FAST" then 4 else if p = "A_HIGH_ASSURANCE" then 6 else 4

/-- `gates._require_binding_for_profile`. -/
def requireBindingForProfile (p : String) : Bool := p = "A_HIGH_ASSURANCE"

/-- `gates.set_pending_gate`. -/
def setPendingGate (sess : SessionState) (gate : String) (payload : Json) : SessionState :=
  let timeout := timeoutForProfile sess.current_profile
  let ph := stableHash payload
  let token := hashSuffix ph (tokenLengthForProfile sess.current_profile)
  let nonce := makeGateNonce sess.session_id sess.interaction_count gate ph (sessionScope sess)
  { sess with pending_gate := { sess.pending_gate with
      gate := gate, created_at_interaction := sess.interaction_count,
      expires_after_turns := timeout, payload := payload, payload_hash := ph,
      confirm_token := token, nonce := nonce,
      require_token_binding := requireBindingForProfile sess.current_profile,
      prompt_cache_hash := stableHash (.obj [("gate", .str gate), ("payload_hash", .str ph),
        ("token", .str token)]) } }

/-- `gates.refresh_pending_gate_crypto`. -/
def refreshPendingGateCrypto (sess : SessionState) : SessionState :=
  let gate := sess.pending_gate.gate
  let ph := stableHash sess.pending_gate.payload
  let token := hashSuffix ph (tokenLengthForProfile sess.current_profile)
  let nonce := makeGateNonce sess.session_id sess.interaction_count gate ph (sessionScope sess)
  { sess with pending_gate := { sess.pending_gate with
      payload_hash := ph, confirm_token := token, nonce := nonce,
      created_at_interaction := sess.interaction_count,
      prompt_cache_hash := stableHash (.obj [("gate", .str gate), ("payload_hash", .str ph),
        ("token", .str token)]) } }

/-- `revisions.append_revision`. -/
def appendRevision (payload : Json) (step : Option Nat) (text : String) : Json :=
  let hist := match payload.getKey "revision_history" with
    | some (.arr l) => l
    | _ => []
  let th16 := strTake (stableHash (.str text)) 16
  let item := Json.obj [("step", match step with | some n => .num n | none => .null),
                        ("text_hash16", .str th16)]
  payload.setKey "revision_history" (.arr (hist ++ [item]))

/-- `revisions.render_revision_block`. -/
def renderRevisionBlock (payload : Json) : String :=
  let hist := match payload.getKey "revision_history" with
    | some (.arr l) => l
    | _ => []
  let tail := hist.drop (hist.length - 10)
  if tail.isEmpty then ""
  else
    let lines := tail.reverse.map fun item =>
      let h := match item.getKey "text_hash16" with
        | some (.str s) => s
        | _ => ""
      match item.getKey "step" with
      | some (.num n) => "- Step " ++ toString n ++ ": (revision hash " ++ h ++ ")"
      | _ => "- (revision hash " ++ h ++ ")"
    String.intercalate "\n" ("Revisions applied (latest first):" :: lines)

/-- The `^\s*(confirm|approve)\s+[0-9a-f]{4,10}\s*` leading-anchor `re.sub`
of `parse_revision` (removed once if it matches at the start; the hex group
is greedy up to 10 characters with no trailing boundary). -/
def stripGateWord (s : String) : String :=
  let tc := (pyLower s).data
  let orig := s.data
  let lead := (tc.takeWhile isPySpace).length
  let tryKw := fun (kw : List Char) =>
    if (tc.drop lead).take kw.length = kw then
      let j := lead + kw.length
      let spaces := ((tc.drop j).takeWhile isPySpace).length
      if spaces = 0 then none
      else
        let k := j + spaces
        let hexLen := min 10 ((tc.drop k).takeWhile isHexChar).length
        if 4 ≤ hexLen then
          let m := k + hexLen
          some (m + ((tc.drop m).takeWhile isPySpace).length)
        else none
    else none
  match tryKw "confirm".data with
  | some cut => String.mk (orig.drop cut)
  | none =>
      match tryKw "approve".data with
      | some cut => String.mk (orig.drop cut)
      | none => s

/-- The `^\s*(yes|yep|yeah|approved|go ahead|proceed)\b[:,]?\s*` leading
`re.sub` of `parse_revision`. -/
def stripAckWord (s : String) : String :=
  let tc := (pyLower s).data
  let orig := s.data
  let lead := (tc.takeWhile isPySpace).length
  let words : List String := ["yes", "yep", "yeah", "approved", "go ahead", "proceed"]
  match words.findSome? (fun w =>
    let wc := w.data
    if (tc.drop lead).take wc.length = wc ∧ boundaryAfter tc (lead + wc.length) = true then
      let j := lead + wc.length
      let punct := if (tc.getD j ' ') = ':' ∨ (tc.getD j ' ') = ',' then 1 else 0
      some (j + punct + ((tc.drop (j + punct)).takeWhile isPySpace).length)
    else none) with
  | some cut => String.mk (orig.drop cut)
  | none => s

/-- `gates.parse_revision`: `(revision_step, revision_text)`. -/
def parseRevision (userText : String) : Option Nat × String :=
  (stepRefSearch (pyLower userText), pyStrip (stripAckWord (stripGateWord userText)))

/-- `gates.render_reflect_prompt`. -/
def renderReflectPrompt (sess : SessionState) (summary : String) : String :=
  let token := sess.pending_gate.confirm_token
  let revBlock := renderRevisionBlock sess.pending_gate.payload
  let revText := if revBlock ≠ "" then "\n\n" ++ revBlock ++ "\n" else "\n"
  if sess.pending_gate.require_token_binding then
    "REFLECT (CONFIRMATION REQUIRED)\n" ++ summary ++ revText ++
    "\nReply exactly: CONFIRM " ++ token ++ "\nOr: REVISE <what to change>\n"
  else
    "REFLECT\n" ++ summary ++ revText ++
    "\nOptional binding: CONFIRM " ++ token ++
    "\nOr reply \x27yes\x27 to confirm, \x27no\x27 to revise.\n"

/-- `gates.render_scaffold_prompt`. -/
def renderScaffoldPrompt (sess : SessionState) (plan : String) : String :=
  let token := sess.pending_gate.confirm_token
  let revBlock := renderRevisionBlock sess.pending_gate.payload
  let revText := if revBlock ≠ "" then "\n\n" ++ revBlock ++ "\n" else "\n"
  if sess.pending_gate.require_token_binding then
    "SCAFFOLD (APPROVAL REQUIRED)\n" ++ plan ++ revText ++
    "\nReply exactly: APPROVE " ++ token ++ "\nOr: REVISE <what to change>\n"
  else
    "SCAFFOLD\n" ++ plan ++ revText ++
    "\nOptional binding: APPROVE " ++ token ++
    "\nOr reply \x27approved\x27 to proceed, \x27no\x27 to revise.\n"

/-- The `(handled, assistant_text, meta)` triple `handle_pending_gate`
returns. -/
structure GateOutcome where
  handled : Bool
  text : String
  meta : Json

/-- The pending-timeout branch of `gates.handle_pending_gate`. -/
def gateTimeout (sess : SessionState) : GateOutcome × SessionState :=
  let before := sess.pending_gate.gate
  let s1 := clearPending sess "reset"
  let s2 := traceAdd s1 before "NONE" "pending_timeout"
    (.obj [("expires_after_turns", .num s1.pending_gate.expires_after_turns)])
  ({ handled := true,
     text := "Timeout on pending gate. Let\x27s start over—what is your goal and constraints?",
     meta := .obj [("timeout", .bool true)] }, s2)

/-- The revise-in-place branch of `gates.handle_pending_gate`. -/
def gateRevision (sess : SessionState) (userText : String) : GateOutcome × SessionState :=
  let rev := parseRevision userText
  let oldToken := sess.pending_gate.confirm_token
  let oldHash := sess.pending_gate.payload_hash
  let oldNonce := sess.pending_gate.nonce
  let s1 := { sess with pending_gate := { sess.pending_gate with
      payload := appendRevision sess.pending_gate.payload rev.1 rev.2 } }
  let s2 := refreshPendingGateCrypto s1
  let s3 := traceAdd s2 s2.pending_gate.gate s2.pending_gate.gate "revise_in_place_applied"
    (.obj [("old_token", .str oldToken), ("new_token", .str s2.pending_gate.confirm_token),
           ("old_payload_hash", .str oldHash),
           ("new_payload_hash", .str s2.pending_gate.payload_hash),
           ("old_nonce", .str oldNonce), ("new_nonce", .str s2.pending_gate.nonce),
           ("revision_step", match rev.1 with | some n => .num n | none => .null),
           ("revision_text_hash16", .str (strTake (stableHash (.str rev.2)) 16))])
  if s3.pending_gate.gate = "REFLECT_CONFIRM" then
    ({ handled := true,
       text := renderReflectPrompt s3
         "Updated pending request with your revision. Confirm updated intent.",
       meta := .obj [("revision", .bool true)] }, s3)
  else
    ({ handled := true,
       text := renderScaffoldPrompt s3
         "Updated pending plan with your revision. Approve updated plan.",
       meta := .obj [("revision", .bool true)] }, s3)

/-- The replay-detected branch of `gates.handle_pending_gate` (accepted
confirmation whose nonce is already consumed). -/
def gateReplay (sess : SessionState) (attempted : String) : GateOutcome × SessionState :=
  let s1 := traceAdd sess sess.pending_gate.gate sess.pending_gate.gate "replay_detected"
    (.obj [("nonce", .str sess.pending_gate.nonce), ("attempted_token", .str attempted)])
  ({ handled := true,
     text := "That confirmation was already processed (replay detected). If you have a new request, restate it.",
     meta := .obj [("replay", .bool true)] }, s1)

/-- The accepted branch of `gates.handle_pending_gate` (fresh nonce). -/
def gateAccept (sess : SessionState) (bindingStatus provided : String) :
    GateOutcome × SessionState :=
  let s1 := consumeNonce sess
  let before := s1.pending_gate.gate
  let s2 := clearPending s1 "confirmed"
  let s3 := traceAdd s2 before "NONE" (pyLower before ++ "_accepted")
    (.obj [("binding_status", .str bindingStatus), ("provided_token", .str provided)])
  if before = "REFLECT_CONFIRM" then
    ({ handled := false, text := "",
       meta := .obj [("gate_cleared", .str "reflect"), ("binding_status", .str bindingStatus)] },
     { s3 with reflect_confirmed := true })
  else
    ({ handled := false, text := "",
       meta := .obj [("gate_cleared", .str "scaffold"), ("binding_status", .str bindingStatus)] },
     { s3 with scaffold_approved := true })

/-- The rejected branch of `gates.handle_pending_gate`. -/
def gateRejected (sess : SessionState) (kind : String) : GateOutcome × SessionState :=
  let before := sess.pending_gate.gate
  let s1 := clearPending sess "reset"
  let s2 := traceAdd s1 before "NONE" "gate_rejected" (.obj [("kind", .str kind)])
  ({ handled := true,
     text := "Okay—tell me what you want instead (goal + constraints + output format).",
     meta := .obj [("rejected", .bool true)] }, s2)

/-- The token-mismatch branch of `gates.handle_pending_gate`. -/
def gateMismatch (sess : SessionState) (provided : String) : GateOutcome × SessionState :=
  let s1 := traceAdd sess sess.pending_gate.gate sess.pending_gate.gate "token_mismatch"
    (.obj [("provided", .str provided), ("expected", .str sess.pending_gate.confirm_token)])
  if sess.pending_gate.gate = "REFLECT_CONFIRM" then
    ({ handled := true,
       text := "Token mismatch. Please reply: CONFIRM " ++ sess.pending_gate.confirm_token,
       meta := .obj [("mismatch", .bool true)] }, s1)
  else
    ({ handled := true,
       text := "Token mismatch. Please reply: APPROVE " ++ sess.pending_gate.confirm_token,
       meta := .obj [("mismatch", .bool true)] }, s1)

/-- The missing-token branch of `gates.handle_pending_gate`. -/
def gateMissingToken (sess : SessionState) : GateOutcome × SessionState :=
  let s1 := traceAdd sess sess.pending_gate.gate sess.pending_gate.gate "missing_token"
    (.obj [("expected", .str sess.pending_gate.confirm_token)])
  if sess.pending_gate.gate = "REFLECT_CONFIRM" then
    ({ handled := true,
       text := "I need explicit confirmation. Reply: CONFIRM " ++ sess.pending_gate.confirm_token,
       meta := .obj [("missing_token", .bool true)] }, s1)
  else
    ({ handled := true,
       text := "I need explicit approval. Reply: APPROVE " ++ sess.pending_gate.confirm_token,
       meta := .obj [("missing_token", .bool true)] }, s1)

/-- The unclear-response branch of `gates.handle_pending_gate`. -/
def gateUnknown (sess : SessionState) (kind : String) : GateOutcome × SessionState :=
  let s1 := traceAdd sess sess.pending_gate.gate sess.pending_gate.gate
    "unclear_gate_response" (.obj [("kind", .str kind)])
  if sess.pending_gate.gate = "REFLECT_CONFIRM" then
    ({ handled := true,
       text := renderReflectPrompt s1 "Please confirm if this matches your intent.",
       meta := .obj [("unknown", .bool true)] }, s1)
  else
    ({ handled := true,
       text := renderScaffoldPrompt s1 "Please approve if this plan is correct.",
       meta := .obj [("unknown", .bool true)] }, s1)

/-- `gates.handle_pending_gate`, with the session threaded explicitly; the
bodies of its blocks are the `gate*` helpers above, in source order. -/
def handlePendingGate (sess : SessionState) (userText : String) :
    GateOutcome × SessionState :=
  if ¬ sess.pending_gate.isActiveGate then
    ({ handled := false, text := "", meta := .obj [] }, sess)
  else if sess.pending_gate.isExpiredGate sess.interaction_count then
    gateTimeout sess
  else if hasRevisionIntent userText then
    gateRevision sess userText
  else
    let kind := if sess.pending_gate.gate = "REFLECT_CONFIRM" then "confirm" else "approve"
    let bd := bindingDecision userText sess.pending_gate.confirm_token
      sess.pending_gate.require_token_binding kind
    if bd.1 then
      if nonceAlreadyUsed sess then gateReplay sess bd.2.2
      else gateAccept sess bd.2.1 bd.2.2
    else if bd.2.1 = "rejected" then gateRejected sess kind
    else if bd.2.1 = "token_mismatch" then gateMismatch sess bd.2.2
    else if bd.2.1 = "missing_token" then gateMissingToken sess
    else gateUnknown sess kind

/-! ## C7 / C10: nonce replay protection and consumed-nonce monotonicity -/

theorem clearPending_consumed (sess : SessionState) (reason : String) :
    (clearPending sess reason).pending_gate.consumed_nonces
      = sess.pending_gate.consumed_nonces := by
  simp only [clearPending]
  split_ifs <;> rfl

theorem clearPending_gate (sess : SessionState) (reason : String) :
    (clearPending sess reason).pending_gate.gate = "NONE" := by
  simp only [clearPending]
  split_ifs <;> rfl

theorem consumeNonce_gate (sess : SessionState) :
    (consumeNonce sess).pending_gate.gate = sess.pending_gate.gate := by
  simp only [consumeNonce]
  split_ifs <;> rfl

theorem consumeNonce_consumed_mono (sess : SessionState) (n : String)
    (hn : n ∈ sess.pending_gate.consumed_nonces) :
    n ∈ (consumeNonce sess).pending_gate.consumed_nonces := by
  simp only [consumeNonce]
  split_ifs with h h2 <;> first | exact hn | exact List.mem_append_left _ hn

theorem consumeNonce_contains_self (sess : SessionState)
    (hne : sess.pending_gate.nonce ≠ "") :
    (consumeNonce sess).pending_gate.consumed_nonces.contains sess.pending_gate.nonce
      = true := by
  simp only [consumeNonce]
  rw [if_pos hne]
  cases hcl : sess.pending_gate.consumed_nonces.contains sess.pending_gate.nonce
  · simp
  · exact hcl

theorem gateTimeout_consumed (sess : SessionState) :
    (gateTimeout sess).2.pending_gate.consumed_nonces
      = sess.pending_gate.consumed_nonces := rfl

theorem gateRevision_consumed (sess : SessionState) (t : String) :
    (gateRevision sess t).2.pending_gate.consumed_nonces
      = sess.pending_gate.consumed_nonces := by
  simp only [gateRevision]
  split_ifs <;> rfl

theorem gateReplay_pending (sess : SessionState) (att : String) :
    (gateReplay sess att).2.pending_gate = sess.pending_gate := rfl

theorem gateRejected_consumed (sess : SessionState) (kind : String) :
    (gateRejected sess kind).2.pending_gate.consumed_nonces
      = sess.pending_gate.consumed_nonces := rfl

theorem gateMismatch_pending (sess : SessionState) (provided : String) :
    (gateMismatch sess provided).2.pending_gate = sess.pending_gate := by
  simp only [gateMismatch]
  split_ifs <;> rfl

theorem gateMissingToken_pending (sess : SessionState) :
    (gateMissingToken sess).2.pending_gate = sess.pending_gate := by
  simp only [gateMissingToken]
  split_ifs <;> rfl

theorem gateUnknown_pending (sess : SessionState) (kind : String) :
    (gateUnknown sess kind).2.pending_gate = sess.pending_gate := by
  simp only [gateUnknown]
  split_ifs <;> rfl

theorem gateAccept_pending (sess : SessionState) (bs pv : String) :
    (gateAccept sess bs pv).2.pending_gate
      = (clearPending (consumeNonce sess) "confirmed").pending_gate := by
  simp only [gateAccept]
  split_ifs <;> rfl

theorem gateAccept_reflect (sess : SessionState) (bs pv : String)
    (hg : sess.pending_gate.gate = "REFLECT_CONFIRM") :
    (gateAccept sess bs pv).2.reflect_confirmed = true := by
  simp only [gateAccept]
  rw [if_pos (by rw [consumeNonce_gate]; exact hg)]

theorem gateAccept_scaffold (sess : SessionState) (bs pv : String)
    (hg : ¬ sess.pending_gate.gate = "REFLECT_CONFIRM") :
    (gateAccept sess bs pv).2.scaffold_approved = true := by
  simp only [gateAccept]
  rw [if_neg (by rw [consumeNonce_gate]; exact hg)]

/-- `strTake` of a `stable_hash` (a 64-character hex digest) is nonempty
whenever `0 < n`. -/
theorem strTake_stableHash_ne_empty (j : Json) (n : Nat) (hn : 0 < n) :
    strTake (stableHash j) n ≠ "" := by
  intro h
  have hdata : (stableHash j).data.take n = ([] : List Char) := congrArg String.data h
  have hl : min n (stableHash j).data.length = 0 := by
    simpa using congrArg List.length hdata
  have hlen : (stableHash j).data.length = 64 := sha256Hex_length (stableJson j)
  omega

/-- Every gate the engine opens carries a nonempty nonce (the first 10 hex
characters of a SHA-256 `stable_hash`). -/
theorem setPendingGate_nonce_ne_empty (sess : SessionState) (gate : String) (payload : Json) :
    (setPendingGate sess gate payload).pending_gate.nonce ≠ "" := by
  simp only [setPendingGate, makeGateNonce]
  exact strTake_stableHash_ne_empty _ 10 (by norm_num)

/-- **C7.**  For a live (active, unexpired, non-revision) gate confirmation
classified as accepted: if the gate\x27s nonce is already consumed, the engine
appends a `replay_detected` trace and rejects — the pending gate, the
`reflect_confirmed` flag and the `scaffold_approved` flag are all left
untouched; otherwise it consumes the nonce, clears the gate, and sets
`reflect_confirmed` (REFLECT_CONFIRM) or `scaffold_approved` (other, i.e.
SCAFFOLD_APPROVE).  The nonce is nonempty for every gate the engine opens
(`make_gate_nonce` yields 10 hex characters; see
`setPendingGate_nonce_ne_empty`). -/
theorem c7_gate_nonce_replay (sess : SessionState) (userText : String)
    (hactive : sess.pending_gate.isActiveGate = true)
    (hfresh : sess.pending_gate.isExpiredGate sess.interaction_count = false)
    (hnorev : hasRevisionIntent userText = false)
    (hacc : (bindingDecision userText sess.pending_gate.confirm_token
        sess.pending_gate.require_token_binding
        (if sess.pending_gate.gate = "REFLECT_CONFIRM" then "confirm" else "approve")).1 = true)
    (hnonce : sess.pending_gate.nonce ≠ "") :
    (sess.pending_gate.consumed_nonces.contains sess.pending_gate.nonce = true →
      (handlePendingGate sess userText).1.handled = true ∧
      (handlePendingGate sess userText).2.reflect_confirmed = sess.reflect_confirmed ∧
      (handlePendingGate sess userText).2.scaffold_approved = sess.scaffold_approved ∧
      (handlePendingGate sess userText).2.pending_gate = sess.pending_gate ∧
      (∃ m, (handlePendingGate sess userText).2.traces
        = sess.traces ++ [StateTrace.mk sess.pending_gate.gate sess.pending_gate.gate
            "replay_detected" sess.pending_gate.gate sess.interaction_count m])) ∧
    (sess.pending_gate.consumed_nonces.contains sess.pending_gate.nonce = false →
      (handlePendingGate sess userText).2.pending_gate.consumed_nonces.contains
        sess.pending_gate.nonce = true ∧
      (handlePendingGate sess userText).2.pending_gate.gate = "NONE" ∧
      (sess.pending_gate.gate = "REFLECT_CONFIRM" →
        (handlePendingGate sess userText).2.reflect_confirmed = true) ∧
      (sess.pending_gate.gate ≠ "REFLECT_CONFIRM" →
        (handlePendingGate sess userText).2.scaffold_approved = true)) := by
  constructor
  · intro hcons
    have hmem : sess.pending_gate.nonce ∈ sess.pending_gate.consumed_nonces := by
      simpa using hcons
    have hred : handlePendingGate sess userText
        = gateReplay sess
            (bindingDecision userText sess.pending_gate.confirm_token
              sess.pending_gate.require_token_binding
              (if sess.pending_gate.gate = "REFLECT_CONFIRM" then "confirm"
               else "approve")).2.2 := by
      simp [handlePendingGate, hactive, hfresh, hnorev, hacc, nonceAlreadyUsed, hnonce, hmem]
    rw [hred]
    exact ⟨rfl, rfl, rfl, rfl, ⟨_, rfl⟩⟩
  · intro hcons
    have hb : nonceAlreadyUsed sess = false := by
      have hmem : sess.pending_gate.nonce ∉ sess.pending_gate.consumed_nonces := by
        simpa using hcons
      simp [nonceAlreadyUsed, hmem]
    have hred : handlePendingGate sess userText
        = gateAccept sess
            (bindingDecision userText sess.pending_gate.confirm_token
              sess.pending_gate.require_token_binding
              (if sess.pending_gate.gate = "REFLECT_CONFIRM" then "confirm"
               else "approve")).2.1
            (bindingDecision userText sess.pending_gate.confirm_token
              sess.pending_gate.require_token_binding
              (if sess.pending_gate.gate = "REFLECT_CONFIRM" then "confirm"
               else "approve")).2.2 := by
      simp [handlePendingGate, hactive, hfresh, hnorev, hacc, hb]
    rw [hred]
    refine ⟨?_, ?_, ?_, ?_⟩
    · rw [gateAccept_pending, clearPending_consumed]
      exact consumeNonce_contains_self sess hnonce
    · rw [gateAccept_pending]
      exact clearPending_gate _ _
    · intro hg
      exact gateAccept_reflect _ _ _ hg
    · intro hg
      exact gateAccept_scaffold _ _ _ hg

/-- A concrete session with a live `REFLECT_CONFIRM` gate and a fresh nonce. -/
def c7sess : SessionState :=
  { session_id := "s-7"
    interaction_count := 6
    pending_gate := { gate := "REFLECT_CONFIRM"
                      created_at_interaction := 5
                      expires_after_turns := 3
                      confirm_token := "abcd"
                      nonce := "n-1"
                      consumed_nonces := [] } }

/-- `c7_gate_nonce_replay` instantiated on a concrete live gate: a fresh
"yes" both consumes the nonce and sets `reflect_confirmed`. -/
theorem c7_gate_nonce_replay_witness :
    (handlePendingGate c7sess "yes").2.pending_gate.consumed_nonces.contains
      c7sess.pending_gate.nonce = true ∧
    (handlePendingGate c7sess "yes").2.reflect_confirmed = true := by
  have h := c7_gate_nonce_replay c7sess "yes" (by decide) (by decide) (by decide)
    (by decide) (by decide)
  exact ⟨(h.2 (by decide)).1, (h.2 (by decide)).2.2.1 (by decide)⟩

/-- **C10.**  Within a session, `pending_gate.consumed_nonces` only grows:
`_consume_nonce` adds the current nonce, and none of the gate operations —
`handle_pending_gate` on any input (confirm, reject, timeout, revision,
replay), `set_pending_gate` opening a new gate, `clear_pending` for any
reason, or `refresh_pending_gate_crypto` — ever removes an element.
Consequently (final conjunct) an accept whose nonce is already consumed is
rejected without touching the confirmation flags, however many gates have
come and gone since the nonce was consumed. -/
theorem c10_consumed_nonces_monotone :
    (∀ (sess : SessionState) (text : String) (n : String),
      n ∈ sess.pending_gate.consumed_nonces →
      n ∈ (handlePendingGate sess text).2.pending_gate.consumed_nonces) ∧
    (∀ (sess : SessionState) (gate : String) (payload : Json) (n : String),
      n ∈ sess.pending_gate.consumed_nonces →
      n ∈ (setPendingGate sess gate payload).pending_gate.consumed_nonces) ∧
    (∀ (sess : SessionState) (reason : String) (n : String),
      n ∈ sess.pending_gate.consumed_nonces →
      n ∈ (clearPending sess reason).pending_gate.consumed_nonces) ∧
    (∀ (sess : SessionState) (n : String),
      n ∈ sess.pending_gate.consumed_nonces →
      n ∈ (refreshPendingGateCrypto sess).pending_gate.consumed_nonces) ∧
    (∀ sess : SessionState, sess.pending_gate.nonce ≠ "" →
      sess.pending_gate.nonce ∈ (consumeNonce sess).pending_gate.consumed_nonces) ∧
    (∀ (sess : SessionState) (text : String),
      sess.pending_gate.isActiveGate = true →
      sess.pending_gate.isExpiredGate sess.interaction_count = false →
      hasRevisionIntent text = false →
      (bindingDecision text sess.pending_gate.confirm_token
        sess.pending_gate.require_token_binding
        (if sess.pending_gate.gate = "REFLECT_CONFIRM" then "confirm" else "approve")).1 = true →
      sess.pending_gate.nonce ≠ "" →
      sess.pending_gate.consumed_nonces.contains sess.pending_gate.nonce = true →
      (handlePendingGate sess text).1.handled = true ∧
      (handlePendingGate sess text).2.reflect_confirmed = sess.reflect_confirmed ∧
      (handlePendingGate sess text).2.scaffold_approved = sess.scaffold_approved) := by
  refine ⟨?_, ?_, ?_, ?_, ?_, ?_⟩
  · intro sess text n hn
    simp only [handlePendingGate]
    split_ifs <;>
      first
        | exact hn
        | (rw [gateTimeout_consumed]; exact hn)
        | (rw [gateRevision_consumed]; exact hn)
        | (rw [gateReplay_pending]; exact hn)
        | (rw [gateRejected_consumed]; exact hn)
        | (rw [gateMismatch_pending]; exact hn)
        | (rw [gateMissingToken_pending]; exact hn)
        | (rw [gateUnknown_pending]; exact hn)
        | (rw [gateAccept_pending, clearPending_consumed]
           exact consumeNonce_consumed_mono sess n hn)
  · intro sess gate payload n hn
    exact hn
  · intro sess reason n hn
    rw [clearPending_consumed]
    exact hn
  · intro sess n hn
    exact hn
  · intro sess hne
    simp only [consumeNonce]
    rw [if_pos hne]
    cases hcl : sess.pending_gate.consumed_nonces.contains sess.pending_gate.nonce
    · simp
    · simpa using hcl
  · intro sess text hactive hfresh hnorev hacc hne hcons
    have hmem : sess.pending_gate.nonce ∈ sess.pending_gate.consumed_nonces := by
      simpa using hcons
    have hred : handlePendingGate sess text
        = gateReplay sess
            (bindingDecision text sess.pending_gate.confirm_token
              sess.pending_gate.require_token_binding
              (if sess.pending_gate.gate = "REFLECT_CONFIRM" then "confirm"
               else "approve")).2.2 := by
      simp [handlePendingGate, hactive, hfresh, hnorev, hacc, nonceAlreadyUsed, hne, hmem]
    rw [hred]
    exact ⟨rfl, rfl, rfl⟩

/-- A concrete session with a live `SCAFFOLD_APPROVE` gate whose nonce is
already in `consumed_nonces`. -/
def c10sess : SessionState :=
  { session_id := "s-10"
    interaction_count := 6
    pending_gate := { gate := "SCAFFOLD_APPROVE"
                      created_at_interaction := 5
                      expires_after_turns := 3
                      confirm_token := "ef01"
                      nonce := "n-1"
                      consumed_nonces := ["n-0", "n-1"] } }

/-- `c10_consumed_nonces_monotone` instantiated on a concrete session: an
old consumed nonce survives `handle_pending_gate`, and an accept on the
already-consumed current nonce is handled as a replay. -/
theorem c10_consumed_nonces_monotone_witness :
    "n-0" ∈ (handlePendingGate c10sess "approved").2.pending_gate.consumed_nonces ∧
    (handlePendingGate c10sess "approved").1.handled = true := by
  refine ⟨c10_consumed_nonces_monotone.1 c10sess "approved" "n-0" (by decide), ?_⟩
  exact (c10_consumed_nonces_monotone.2.2.2.2.2 c10sess "approved" (by decide) (by decide)
    (by decide) (by decide) (by decide) (by decide)).1

/-! ## C8: `ecosphere.kernel.tools.safe_calc` and the engine calc path

Python numbers are modelled faithfully: `int` results are exact integers,
`float` results are IEEE-754 binary64 values (round-to-nearest-even with
subnormals, signed zeros, infinities and NaN, as CPython produces them),
literals and `int`/`int` true division are correctly rounded, `int`→`float`
conversion raises `OverflowError` outside the double range, and the
`isnan`/`isinf`/`float(val)` guard of `safe_calc` is represented exactly.
The `args_hash` binding (a `stable_hash` of the tool name and arguments)
does not affect `ok`/`output` and is omitted.  The `attribute` line only
restores default unfolding for the core rational operations so that
concrete runs of the calculator reduce. -/

set_option allowUnsafeReducibility true in
attribute [semireducible] Rat.add Rat.mul Rat.sub Rat.div Rat.inv Rat.neg

/-- An IEEE-754 binary64 value as CPython floats behave: a finite nonzero
double is the exact rational it denotes, `fin 0` is `+0.0`, and `-0.0`,
`±inf` and `nan` are explicit. -/
inductive Float64 where
  | fin (q : ℚ)
  | negZero
  | inf
  | negInf
  | nan
deriving DecidableEq

/-- Floor of the base-2 logarithm (fuel-driven, `n` is enough fuel). -/
def natLog2Go : Nat → Nat → Nat
  | 0, _ => 0
  | fuel+1, n => if n ≤ 1 then 0 else natLog2Go fuel (n / 2) + 1

/-- Floor of the base-2 logarithm of a natural number. -/
def natLog2 (n : Nat) : Nat := natLog2Go n n

/-- Round `a / b` to the nearest integer, ties to even (`b > 0`). -/
def rheDiv (a b : Nat) : Nat :=
  let q := a / b
  let r := a % b
  if 2 * r < b then q
  else if b < 2 * r then q + 1
  else if q % 2 = 0 then q else q + 1

/-- The rational `2 ^ u` for a signed exponent. -/
def qpow2 (u : Int) : ℚ :=
  if 0 ≤ u then ((2^u.toNat : Nat) : ℚ) else 1 / ((2^(-u).toNat : Nat) : ℚ)

/-- A zero with the given sign bit. -/
def signedZero (neg : Bool) : Float64 := if neg then .negZero else .fin 0

/-- An infinity with the given sign bit. -/
def signedInf (neg : Bool) : Float64 := if neg then .negInf else .inf

/-- Value with the given sign applied. -/
def qSigned (neg : Bool) (v : ℚ) : ℚ := if neg then -v else v

/-- The binary exponent of `a / b` (both positive): the largest `e` with
`2 ^ e ≤ a / b`, found from the bit lengths and corrected by direct
comparison. -/
def floatExp (a b : Nat) : Int :=
  let e0 : Int := (natLog2 a : Int) - (natLog2 b : Int)
  let le2 : Int → Bool := fun e =>
    if 0 ≤ e then decide (b * 2^e.toNat ≤ a) else decide (b ≤ a * 2^(-e).toNat)
  if le2 (e0+1) then e0+1 else if le2 e0 then e0 else e0 - 1

/-- Round the positive rational `a / b` with binary exponent `e` onto the
binary64 grid, nearest-ties-even, applying the sign at the end: a 53-bit
significand for normal exponents (overflow to the like-signed infinity),
the fixed `2^-1074` grid below (underflow to a signed zero). -/
def roundMant (a b : Nat) (e : Int) (neg : Bool) : Float64 :=
  if 1023 < e then signedInf neg
  else if -1022 ≤ e then
    let u : Int := e - 52
    let m := rheDiv (a * 2^((-u).toNat)) (b * 2^(u.toNat))
    if 2^53 ≤ m then
      if 1023 < e + 1 then signedInf neg
      else .fin (qSigned neg (((2^52 : Nat) : ℚ) * qpow2 (u+1)))
    else .fin (qSigned neg ((m : ℚ) * qpow2 u))
  else
    let m := rheDiv (a * 2^1074) b
    if m = 0 then signedZero neg
    else .fin (qSigned neg ((m : ℚ) * qpow2 (-1074)))

/-- Round a rational to binary64, nearest-ties-even — exactly the
rounding CPython applies to float literals, `int`→`float` conversions and
arithmetic results. -/
def roundQ (q : ℚ) : Float64 :=
  if q = 0 then .fin 0
  else roundMant q.num.natAbs q.den (floatExp q.num.natAbs q.den) (q < 0)

/-- Test for `nan` (the `math.isnan` classification). -/
def Float64.isNan : Float64 → Bool
  | .nan => true
  | _ => false

/-- Test for an infinity (the `math.isinf` classification). -/
def Float64.isInf : Float64 → Bool
  | .inf => true
  | .negInf => true
  | _ => false

/-- A double is finite when it is neither `nan` nor an infinity. -/
def Float64.isFinite (f : Float64) : Bool := !f.isNan && !f.isInf

/-- Test for `+0.0` or `-0.0`. -/
def Float64.isZero : Float64 → Bool
  | .fin q => q = 0
  | .negZero => true
  | _ => false

/-- Sign bit (`true` for negative, including `-0.0` and `-inf`). -/
def Float64.sign : Float64 → Bool
  | .fin q => q < 0
  | .negZero => true
  | .negInf => true
  | _ => false

/-- The exact rational value of a finite double (zero elsewhere). -/
def Float64.toQ : Float64 → ℚ
  | .fin q => q
  | _ => 0

/-- IEEE negation (`operator.neg` on a float): flips the sign bit,
including on zeros and infinities. -/
def fneg : Float64 → Float64
  | .fin q => if q = 0 then .negZero else .fin (-q)
  | .negZero => .fin 0
  | .inf => .negInf
  | .negInf => .inf
  | .nan => .nan

/-- IEEE binary64 addition as CPython performs it: NaN and infinity
propagation (`inf + -inf = nan`), the signed-zero rules (`-0.0 + -0.0 =
-0.0`, an exact zero sum of nonzero operands is `+0.0`), and correct
rounding of the exact sum otherwise. -/
def fadd (x y : Float64) : Float64 :=
  if x.isNan || y.isNan then .nan
  else if x.isInf then
    (if y.isInf then (if x.sign = y.sign then x else .nan) else x)
  else if y.isInf then y
  else if x.isZero && y.isZero then (if x.sign && y.sign then .negZero else .fin 0)
  else
    let s := x.toQ + y.toQ
    if s = 0 then .fin 0 else roundQ s

/-- IEEE subtraction: `x - y = x + (-y)`. -/
def fsub (x y : Float64) : Float64 := fadd x (fneg y)

/-- IEEE binary64 multiplication: `inf * 0 = nan`, signs multiply, and
the exact product is correctly rounded (underflow gives a signed zero). -/
def fmul (x y : Float64) : Float64 :=
  if x.isNan || y.isNan then .nan
  else if x.isInf || y.isInf then
    (if x.isZero || y.isZero then .nan else signedInf (x.sign != y.sign))
  else if x.isZero || y.isZero then signedZero (x.sign != y.sign)
  else roundQ (x.toQ * y.toQ)

/-- IEEE binary64 division for a nonzero divisor (CPython raises
`ZeroDivisionError` before this point): `inf / inf = nan`, `x / inf` is a
signed zero, and the exact quotient is correctly rounded otherwise. -/
def fdivF (x y : Float64) : Float64 :=
  if x.isNan || y.isNan then .nan
  else if x.isInf then (if y.isInf then .nan else signedInf (x.sign != y.sign))
  else if y.isInf then signedZero (x.sign != y.sign)
  else if x.isZero then signedZero (x.sign != y.sign)
  else roundQ (x.toQ / y.toQ)

/-- A Python number: an exact arbitrary-precision `int` or a `float`. -/
inductive PyNum where
  | pint (n : Int)
  | pfloat (f : Float64)
deriving DecidableEq

/-- CPython `int`→`float` conversion: correctly rounded, raising
`OverflowError` ("int too large to convert to float", modelled by the
class name) when the rounded value is infinite. -/
def toF : PyNum → Except String Float64
  | .pfloat f => .ok f
  | .pint n =>
    match roundQ (n : ℚ) with
    | .inf => .error "OverflowError"
    | .negInf => .error "OverflowError"
    | f => .ok f

/-- Python `+` on numbers (`operator.add`): exact on `int × int`,
otherwise both operands convert to float (possibly raising
`OverflowError`) and add with IEEE rounding. -/
def pyAdd : PyNum → PyNum → Except String PyNum
  | .pint a, .pint b => .ok (.pint (a + b))
  | x, y =>
    match toF x with
    | .error e => .error e
    | .ok fx =>
      match toF y with
      | .error e => .error e
      | .ok fy => .ok (.pfloat (fadd fx fy))

/-- Python `-` on numbers (`operator.sub`), as for `pyAdd`. -/
def pySub : PyNum → PyNum → Except String PyNum
  | .pint a, .pint b => .ok (.pint (a - b))
  | x, y =>
    match toF x with
    | .error e => .error e
    | .ok fx =>
      match toF y with
      | .error e => .error e
      | .ok fy => .ok (.pfloat (fsub fx fy))

/-- Python `*` on numbers (`operator.mul`), as for `pyAdd`. -/
def pyMul : PyNum → PyNum → Except String PyNum
  | .pint a, .pint b => .ok (.pint (a * b))
  | x, y =>
    match toF x with
    | .error e => .error e
    | .ok fx =>
      match toF y with
      | .error e => .error e
      | .ok fy => .ok (.pfloat (fmul fx fy))

/-- Python `/` (`operator.truediv`): `int / int` is the correctly rounded
true quotient (CPython `long_true_divide`), raising `ZeroDivisionError`
on a zero divisor and `OverflowError` when the quotient overflows; mixed
and float division convert first (conversion errors take precedence, as
in CPython), then raise `ZeroDivisionError` on a zero divisor. -/
def pyDiv : PyNum → PyNum → Except String PyNum
  | .pint a, .pint b =>
    if b = 0 then .error "ZeroDivisionError"
    else
      match roundQ ((a : ℚ) / (b : ℚ)) with
      | .inf => .error "OverflowError"
      | .negInf => .error "OverflowError"
      | f => .ok (.pfloat f)
  | x, y =>
    match toF x with
    | .error e => .error e
    | .ok fx =>
      match toF y with
      | .error e => .error e
      | .ok fy =>
        if fy.isZero then .error "ZeroDivisionError"
        else .ok (.pfloat (fdivF fx fy))

/-- Python unary `-` (`operator.neg`): exact on `int`, sign flip on
floats. -/
def pyNeg : PyNum → PyNum
  | .pint n => .pint (-n)
  | .pfloat f => .pfloat (fneg f)

/-- The rational `10 ^ k` for a signed exponent. -/
def pow10Z (k : Int) : ℚ :=
  if 0 ≤ k then ((10^k.toNat : Nat) : ℚ) else 1 / ((10^(-k).toNat : Nat) : ℚ)

/-- Scaling loop finding the decimal exponent of a positive rational. -/
def decExpGo : Nat → ℚ → Int → Int
  | 0, _, E => E
  | fuel+1, w, E =>
    if w < 1 then decExpGo fuel (w * 10) (E - 1)
    else if 10 ≤ w then decExpGo fuel (w / 10) (E + 1)
    else E

/-- The largest `E` with `10 ^ E ≤ w`, for positive double values (the
fuel covers the full double exponent range). -/
def decExp (w : ℚ) : Int := decExpGo 800 w 0

/-- Round a nonnegative rational to the nearest integer, ties to even. -/
def rheDivQ (w : ℚ) : Nat := rheDiv w.num.natAbs w.den

/-- Shortest-round-trip digit search (CPython repr, David Gay mode 0):
try `d = 1, 2, …` significant digits, each time taking the nearest
`d`-digit decimal to `w`, until reading the candidate back yields exactly
`w`; 17 digits always succeed. Returns the digits and the decimal
exponent of the leading digit. -/
def sdGo (w : ℚ) (E : Int) : Nat → Nat → Nat × Int
  | 0, _ => (rheDivQ (w * pow10Z (16 - E)), E)
  | fuel+1, d =>
    let N := rheDivQ (w * pow10Z ((d : Int) - 1 - E))
    let p : Nat × Int := if N = 10^d then (10^(d-1), E + 1) else (N, E)
    if roundQ ((p.1 : ℚ) * pow10Z (p.2 - (d : Int) + 1)) = .fin w then p
    else sdGo w E fuel (d+1)

/-- Shortest digits and decimal exponent of a positive double value. -/
def shortestRepr (w : ℚ) : Nat × Int := sdGo w (decExp w) 18 1

/-- CPython float repr formatting of a digit string: positional when
`-4 ≤ E < 16` (integral values get a trailing `.0`), scientific
`d.ddde±XX` otherwise, with a two-digit minimum exponent. -/
def fmtDigits (N : Nat) (E : Int) : String :=
  let D := toString N
  let d : Int := D.data.length
  if -4 ≤ E ∧ E < 16 then
    if d ≤ E + 1 then
      D ++ String.mk (List.replicate (E + 1 - d).toNat '0') ++ ".0"
    else if 0 ≤ E then
      String.mk (D.data.take (E+1).toNat) ++ "." ++ String.mk (D.data.drop (E+1).toNat)
    else
      "0." ++ String.mk (List.replicate (-E - 1).toNat '0') ++ D
  else
    String.mk (D.data.take 1) ++
    (if D.data.length = 1 then "" else "." ++ String.mk (D.data.drop 1)) ++
    "e" ++ (if E < 0 then "-" else "+") ++
    (let ea := (if E < 0 then -E else E).toNat
     if ea < 10 then "0" ++ toString ea else toString ea)

/-- Python `str()` of a float: the shortest decimal string that reads
back to the same double, formatted as CPython repr does. -/
def pyStrFloat : Float64 → String
  | .nan => "nan"
  | .inf => "inf"
  | .negInf => "-inf"
  | .negZero => "-0.0"
  | .fin q =>
    if q = 0 then "0.0"
    else
      let w := |q|
      let p := shortestRepr w
      (if q < 0 then "-" else "") ++ fmtDigits p.1 p.2

/-- The `ast` expression nodes reachable by `ast.parse(expr, mode="eval")`
over the allowed characters `0123456789.+-*/() `: numeric constants
(`int` or compile-time-rounded `float`), the four whitelisted binary
operators, unary `+`/`-`, plus the two parseable but non-whitelisted
operators `**` (`ast.Pow`) and `//` (`ast.FloorDiv`); `unsupported`
stands for any other node shape. -/
inductive PyAst where
  | const (v : PyNum)
  | add (l r : PyAst)
  | sub (l r : PyAst)
  | mul (l r : PyAst)
  | div (l r : PyAst)
  | pos (e : PyAst)
  | neg (e : PyAst)
  | pow (l r : PyAst)
  | floorDiv (l r : PyAst)
  | unsupported (name : String)
deriving DecidableEq

/-- Tokens of the CPython lexer restricted to the allowed characters. -/
inductive CalcTok where
  | num (v : PyNum)
  | plus
  | minus
  | star
  | slash
  | dstar
  | dslash
  | lpar
  | rpar
deriving DecidableEq

/-- Decimal digit-run value. -/
def digitsVal (ds : List Char) : Nat := ds.foldl (fun n c => n * 10 + (c.toNat - 48)) 0

/-- The CPython lexer on the allowed characters (maximal-munch `**`/`//`,
number tokens `digits[.digits]` or `.digits`, spaces skipped; a bare `.`
or any other character is a lexical error).  Digit-only literals are
exact Python ints; literals with a point are floats, correctly rounded at
compile time (so an overlong float literal becomes `inf`). -/
def calcTokenizeGo : Nat → List Char → Option (List CalcTok)
  | 0, _ => none
  | _, [] => some []
  | fuel+1, c :: cs =>
    if c = ' ' then calcTokenizeGo fuel cs
    else if c.isDigit then
      let ds := (c :: cs).takeWhile Char.isDigit
      let rest := (c :: cs).drop ds.length
      match rest with
      | '.' :: r2 =>
          let fs := r2.takeWhile Char.isDigit
          let r3 := r2.drop fs.length
          (calcTokenizeGo fuel r3).map
            (fun ts => .num (.pfloat (roundQ
              ((digitsVal ds : ℚ) + (digitsVal fs : ℚ) / ((10 : ℚ) ^ fs.length)))) :: ts)
      | _ => (calcTokenizeGo fuel rest).map (fun ts => .num (.pint (digitsVal ds)) :: ts)
    else if c = '.' then
      match cs with
      | d :: _ =>
        if d.isDigit then
          let fs := cs.takeWhile Char.isDigit
          let r2 := cs.drop fs.length
          (calcTokenizeGo fuel r2).map
            (fun ts => .num (.pfloat (roundQ
              ((digitsVal fs : ℚ) / ((10 : ℚ) ^ fs.length)))) :: ts)
        else none
      | [] => none
    else if c = '+' then (calcTokenizeGo fuel cs).map (fun ts => .plus :: ts)
    else if c = '-' then (calcTokenizeGo fuel cs).map (fun ts => .minus :: ts)
    else if c = '*' then
      match cs with
      | '*' :: r => (calcTokenizeGo fuel r).map (fun ts => .dstar :: ts)
      | _ => (calcTokenizeGo fuel cs).map (fun ts => .star :: ts)
    else if c = '/' then
      match cs with
      | '/' :: r => (calcTokenizeGo fuel r).map (fun ts => .dslash :: ts)
      | _ => (calcTokenizeGo fuel cs).map (fun ts => .slash :: ts)
    else if c = '(' then (calcTokenizeGo fuel cs).map (fun ts => .lpar :: ts)
    else if c = ')' then (calcTokenizeGo fuel cs).map (fun ts => .rpar :: ts)
    else none

/-- Tokenize with sufficient fuel (every step consumes a character). -/
def calcTokenize (s : List Char) : Option (List CalcTok) := calcTokenizeGo (s.length + 1) s

/-- Nonterminals of the Python expression grammar over the calc tokens
(`arith` is the addition level, `term` the multiplication level, `unary`
the sign level, `power` the right-associative `**` level; the `Rest`
modes carry the left-associative accumulator). -/
inductive CalcMode where
  | arith
  | arithRest (l : PyAst)
  | term
  | termRest (l : PyAst)
  | unary
  | power
  | atom

/-- Recursive-descent parser for the Python expression grammar restricted
to the allowed characters, mirroring the precedence used by `ast.parse`:
`a-b-c` is `(a-b)-c`, `-2**2` is `-(2**2)`, `2**-3` is `2**(-3)`. -/
def calcRun : Nat → CalcMode → List CalcTok → Option (PyAst × List CalcTok)
  | 0, _, _ => none
  | fuel+1, m, toks =>
    match m with
    | .arith =>
      match calcRun fuel .term toks with
      | some (l, rest) => calcRun fuel (.arithRest l) rest
      | none => none
    | .arithRest l =>
      match toks with
      | .plus :: r =>
        match calcRun fuel .term r with
        | some (t, rest) => calcRun fuel (.arithRest (.add l t)) rest
        | none => none
      | .minus :: r =>
        match calcRun fuel .term r with
        | some (t, rest) => calcRun fuel (.arithRest (.sub l t)) rest
        | none => none
      | _ => some (l, toks)
    | .term =>
      match calcRun fuel .unary toks with
      | some (l, rest) => calcRun fuel (.termRest l) rest
      | none => none
    | .termRest l =>
      match toks with
      | .star :: r =>
        match calcRun fuel .unary r with
        | some (t, rest) => calcRun fuel (.termRest (.mul l t)) rest
        | none => none
      | .slash :: r =>
        match calcRun fuel .unary r with
        | some (t, rest) => calcRun fuel (.termRest (.div l t)) rest
        | none => none
      | .dslash :: r =>
        match calcRun fuel .unary r with
        | some (t, rest) => calcRun fuel (.termRest (.floorDiv l t)) rest
        | none => none
      | _ => some (l, toks)
    | .unary =>
      match toks with
      | .plus :: r => (calcRun fuel .unary r).map (fun p => (.pos p.1, p.2))
      | .minus :: r => (calcRun fuel .unary r).map (fun p => (.neg p.1, p.2))
      | _ => calcRun fuel .power toks
    | .power =>
      match calcRun fuel .atom toks with
      | some (b, rest) =>
        match rest with
        | .dstar :: r => (calcRun fuel .unary r).map (fun p => (.pow b p.1, p.2))
        | _ => some (b, rest)
      | none => none
    | .atom =>
      match toks with
      | .num v :: r => some (.const v, r)
      | .lpar :: r =>
        match calcRun fuel .arith r with
        | some (e, .rpar :: rest) => some (e, rest)
        | _ => none
      | _ => none

/-- Python `ast.parse(s, mode="eval")` over the allowed characters:
`none` is a `SyntaxError` (which `safe_calc` turns into `eval_failed`). -/
def calcParse (s : String) : Option PyAst :=
  match calcTokenize s.data with
  | none => none
  | some toks =>
    match calcRun (toks.length * 8 + 8) .arith toks with
    | some (e, []) => some e
    | _ => none

/-- The `_eval_node` recursion of `safe_calc` with the `_OPS` whitelist:
`Pow`/`FloorDiv` and any other node raise
`ValueError("unsupported_node:...")`; the arithmetic helpers raise
`ZeroDivisionError` and `OverflowError` exactly where CPython does (the
error string stands for the raised exception class). -/
def evalNode : PyAst → Except String PyNum
  | .const v => .ok v
  | .add l r =>
    match evalNode l with
    | .error e => .error e
    | .ok a =>
      match evalNode r with
      | .error e => .error e
      | .ok b => pyAdd a b
  | .sub l r =>
    match evalNode l with
    | .error e => .error e
    | .ok a =>
      match evalNode r with
      | .error e => .error e
      | .ok b => pySub a b
  | .mul l r =>
    match evalNode l with
    | .error e => .error e
    | .ok a =>
      match evalNode r with
      | .error e => .error e
      | .ok b => pyMul a b
  | .div l r =>
    match evalNode l with
    | .error e => .error e
    | .ok a =>
      match evalNode r with
      | .error e => .error e
      | .ok b => pyDiv a b
  | .pos e =>
    match evalNode e with
    | .error er => .error er
    | .ok a => .ok a
  | .neg e =>
    match evalNode e with
    | .error er => .error er
    | .ok a => .ok (pyNeg a)
  | .pow _ _ => .error "unsupported_node:BinOp"
  | .floorDiv _ _ => .error "unsupported_node:BinOp"
  | .unsupported n => .error ("unsupported_node:" ++ n)

/-- The character whitelist `set("0123456789.+-*/() ")` of `safe_calc`. -/
def allowedCalcChar (c : Char) : Bool :=
  c.isDigit || c = '.' || c = '+' || c = '-' || c = '*' || c = '/' || c = '(' || c = ')' || c = ' '

/-- The `output` dict of a calc `ToolResult`: `{"error": e}` or
`{"value": v}` with a float value. -/
inductive CalcOut where
  | err (e : String)
  | val (f : Float64)
deriving DecidableEq

/-- A calc `ToolResult` (`tool`/`args_hash` omitted). -/
structure CalcResult where
  ok : Bool
  out : CalcOut
deriving DecidableEq

/-- The result guard of `safe_calc`: for an `int` result, `math.isnan`
converts it to float — raising `OverflowError` (caught as `eval_failed`)
when the value rounds to infinity — and `float(val)` then yields the
rounded value; for a `float` result, `nan` or an infinity is the
`nonfinite` error; otherwise `ok` with the float value. -/
def calcGuard (v : PyNum) : CalcResult :=
  match v with
  | .pint n =>
    if (roundQ (n : ℚ)).isInf then { ok := false, out := .err "eval_failed" }
    else { ok := true, out := .val (roundQ (n : ℚ)) }
  | .pfloat f =>
    if f.isNan || f.isInf then { ok := false, out := .err "nonfinite" }
    else { ok := true, out := .val f }

/-- The post-parse step of `safe_calc`: evaluate, apply the result guard,
and classify raised exceptions (`ZeroDivisionError` versus everything
else, which the bare `except` turns into `eval_failed`). -/
def calcOutcome (tree : PyAst) : CalcResult :=
  match evalNode tree with
  | .ok v => calcGuard v
  | .error e =>
    if e = "ZeroDivisionError" then { ok := false, out := .err "division_by_zero" }
    else { ok := false, out := .err "eval_failed" }

/-- `ecosphere.kernel.tools.safe_calc`. -/
def safe_calc (expr : String) : CalcResult :=
  if pyStrip expr = "" then { ok := false, out := .err "empty_expr" }
  else if expr.data.any (fun c => !allowedCalcChar c) then
    { ok := false, out := .err "invalid_chars" }
  else
    match calcParse (pyStrip expr) with
    | none => { ok := false, out := .err "eval_failed" }
    | some tree => calcOutcome tree

/-- Python `s.split(":", 1)[1]`. -/
def splitAfterFirstColon (s : String) : String :=
  String.mk ((s.data.dropWhile (fun c => c ≠ ':')).drop 1)

/-- The calc branch of `engine._execute_tdm`: on `calc:`-prefixed input
(after strip/lower) run `safe_calc` on the text after the first colon and
answer with `str` of the value or the `CLARIFY` line; `none` when the
branch is not taken. -/
def engineCalc (userText : String) : Option (String × CalcResult) :=
  if List.isPrefixOf "calc:".data (pyLower (pyStrip userText)).data then
    let expr := pyStrip (splitAfterFirstColon userText)
    let tr := safe_calc expr
    some ((if tr.ok then (match tr.out with | .val f => pyStrFloat f | .err _ => "")
           else "CLARIFY: invalid calc expression."), tr)
  else none

theorem signedInf_ne_nan (neg : Bool) : signedInf neg ≠ .nan := by
  unfold signedInf
  split_ifs <;> exact fun h => Float64.noConfusion h

theorem signedZero_ne_nan (neg : Bool) : signedZero neg ≠ .nan := by
  unfold signedZero
  split_ifs <;> exact fun h => Float64.noConfusion h

theorem roundMant_ne_nan (a b : Nat) (e : Int) (neg : Bool) : roundMant a b e neg ≠ .nan := by
  simp only [roundMant]
  split_ifs <;>
    first
      | exact signedInf_ne_nan neg
      | exact signedZero_ne_nan neg
      | exact fun h => Float64.noConfusion h

/-- Binary64 rounding never produces `nan`. -/
theorem roundQ_ne_nan (q : ℚ) : roundQ q ≠ .nan := by
  unfold roundQ
  split_ifs
  · exact fun h => Float64.noConfusion h
  · exact roundMant_ne_nan _ _ _ _

/-- Unfolding equation of the guard on an `int` result. -/
theorem calcGuard_pint (n : Int) :
    calcGuard (.pint n)
      = if (roundQ (n : ℚ)).isInf then { ok := false, out := .err "eval_failed" }
        else { ok := true, out := .val (roundQ (n : ℚ)) } := rfl

/-- Unfolding equation of the guard on a `float` result. -/
theorem calcGuard_pfloat (f : Float64) :
    calcGuard (.pfloat f)
      = if f.isNan || f.isInf then { ok := false, out := .err "nonfinite" }
        else { ok := true, out := .val f } := rfl

set_option maxRecDepth 8000
set_option maxHeartbeats 4000000

/-- **C8.**  The calculator rejects any expression with a character outside
`0123456789.+-*/() ` (so the `__import__` injection yields the CLARIFY
answer with `ok = false` and `invalid_chars`); the evaluator rejects every
AST node outside the whitelist (`**`, `//`, and any other node); division
by zero yields `ok = false` with `division_by_zero`; an `ok = true` result
always carries a finite float value, while a non-finite result yields
`ok = false` — both at the guard (`nonfinite` for a float `nan`/`inf`, and
`eval_failed` for an integer beyond float range, whose conversion raises
`OverflowError`: four hundred nines) and end to end (an overlong float
literal evaluates to `inf`: three hundred ten nines before `.0`); and
`calc: (7 + 3) * 12` produces the assistant text `120.0`. -/
theorem c8_safe_calc :
    (∀ expr : String, expr.data.any (fun c => !allowedCalcChar c) = true →
      (safe_calc expr).ok = false) ∧
    (∀ l r : PyAst, evalNode (.pow l r) = .error "unsupported_node:BinOp" ∧
      evalNode (.floorDiv l r) = .error "unsupported_node:BinOp") ∧
    (∀ n : String, evalNode (.unsupported n) = .error ("unsupported_node:" ++ n)) ∧
    (∀ (expr : String) (t : PyAst),
      expr.data.any (fun c => !allowedCalcChar c) = false →
      calcParse (pyStrip expr) = some t →
      evalNode t = .error "ZeroDivisionError" →
      safe_calc expr = { ok := false, out := .err "division_by_zero" }) ∧
    (∀ expr : String, (safe_calc expr).ok = true →
      ∃ f : Float64, (safe_calc expr).out = .val f ∧ f.isFinite = true) ∧
    (∀ f : Float64, f.isFinite = false →
      calcGuard (.pfloat f) = { ok := false, out := .err "nonfinite" }) ∧
    (safe_calc (String.mk (List.replicate 400 '9'))
      = { ok := false, out := .err "eval_failed" }) ∧
    (safe_calc (String.mk (List.replicate 310 '9') ++ ".0")
      = { ok := false, out := .err "nonfinite" }) ∧
    (engineCalc "calc: __import__(\x27os\x27).system(\x27rm -rf /\x27)"
      = some ("CLARIFY: invalid calc expression.",
          { ok := false, out := .err "invalid_chars" })) ∧
    (engineCalc "calc: (7 + 3) * 12"
      = some ("120.0", { ok := true, out := .val (.fin 120) })) := by
  refine ⟨?_, ?_, ?_, ?_, ?_, ?_, by decide, by decide, by decide, by decide⟩
  · intro expr hbad
    unfold safe_calc
    by_cases h1 : pyStrip expr = ""
    · rw [if_pos h1]
    · rw [if_neg h1, if_pos hbad]
  · intro l r
    exact ⟨rfl, rfl⟩
  · intro n
    rfl
  · intro expr t hgood hparse heval
    unfold safe_calc
    have h1 : ¬ pyStrip expr = "" := by
      intro h1
      have h0 : calcParse "" = none := rfl
      rw [h1, h0] at hparse
      exact Option.noConfusion hparse
    have h2 : ¬ expr.data.any (fun c => !allowedCalcChar c) = true := by
      simp [hgood]
    rw [if_neg h1, if_neg h2, hparse]
    show calcOutcome t = { ok := false, out := .err "division_by_zero" }
    unfold calcOutcome
    rw [heval]
    rfl
  · intro expr hok
    unfold safe_calc at hok ⊢
    by_cases h1 : pyStrip expr = ""
    · rw [if_pos h1] at hok
      exact Bool.noConfusion hok
    · rw [if_neg h1] at hok ⊢
      by_cases h2 : expr.data.any (fun c => !allowedCalcChar c) = true
      · rw [if_pos h2] at hok
        exact Bool.noConfusion hok
      · rw [if_neg h2] at hok ⊢
        rcases hp : calcParse (pyStrip expr) with _ | tree
        · rw [hp] at hok
          exact Bool.noConfusion hok
        · rw [hp] at hok
          have hok2 : (calcOutcome tree).ok = true := hok
          have hout : ∃ f, (calcOutcome tree).out = .val f ∧ f.isFinite = true := by
            unfold calcOutcome at hok2 ⊢
            rcases he : evalNode tree with e | v
            · rw [he] at hok2
              have hok3 : (if e = "ZeroDivisionError"
                  then ({ ok := false, out := CalcOut.err "division_by_zero" } : CalcResult)
                  else { ok := false, out := CalcOut.err "eval_failed" }).ok = true := hok2
              split_ifs at hok3 <;> exact Bool.noConfusion hok3
            · rw [he] at hok2
              show ∃ f, (calcGuard v).out = CalcOut.val f ∧ f.isFinite = true
              have hg : (calcGuard v).ok = true := hok2
              rcases v with n | f
              · rw [calcGuard_pint] at hg ⊢
                by_cases hi : (roundQ (n : ℚ)).isInf = true
                · rw [if_pos hi] at hg
                  exact Bool.noConfusion hg
                · rw [if_neg hi] at hg ⊢
                  refine ⟨roundQ (n : ℚ), rfl, ?_⟩
                  have hn : (roundQ (n : ℚ)).isNan = false := by
                    rcases hfr : roundQ (n : ℚ) with q | _ | _ | _ | _ <;>
                      first
                        | rfl
                        | exact absurd hfr (roundQ_ne_nan _)
                  simp only [Bool.not_eq_true] at hi
                  simp [Float64.isFinite, hn, hi]
              · rw [calcGuard_pfloat] at hg ⊢
                by_cases hb : (f.isNan || f.isInf) = true
                · rw [if_pos hb] at hg
                  exact Bool.noConfusion hg
                · rw [if_neg hb]
                  refine ⟨f, rfl, ?_⟩
                  simp only [Bool.or_eq_true, not_or, Bool.not_eq_true] at hb
                  simp [Float64.isFinite, hb.1, hb.2]
          rcases hout with ⟨f, hv, hf⟩
          exact ⟨f, hv, hf⟩
  · intro f hf
    cases f <;>
      first
        | rfl
        | exact absurd hf (by simp [Float64.isFinite, Float64.isNan, Float64.isInf])

/-- `c8_safe_calc` instantiated: a letter makes the check fail, and `1/0`
is reported as a division by zero. -/
theorem c8_safe_calc_witness :
    (safe_calc "a+1").ok = false ∧
    safe_calc "1/0" = { ok := false, out := .err "division_by_zero" } :=
  ⟨c8_safe_calc.1 "a+1" (by decide),
   c8_safe_calc.2.2.2.1 "1/0" (.div (.const (.pint 1)) (.const (.pint 0)))
     (by decide) (by decide) (by rfl)⟩

/-! ## C9: `ecosphere.consensus.gates.scope_gate.scope_gate_v1`

A compiled block rule is modelled with its `pattern.findall` abstracted as
a `matcher` function (the claim quantifies over arbitrary configured
patterns); `emit_stage_event` is ledger output and does not affect the
returned decision, so it is not represented. -/

/-- `_CompiledRule`: `matcher` stands for `pattern.findall` of the
compiled (IGNORECASE) regex; `raw` is the source pattern string. -/
structure ScopeRule where
  matcher : String → List String
  min_level : Int
  reason : String
  raw : String

/-- `ScopeGateConfig` with its defaults. -/
structure ScopeGateConfig where
  domain : String := "general"
  rules : List ScopeRule
  require_disclaimer_low_tier : Bool := true
  low_tier_disclaimer_snippet : String :=
    "This is general information only and not professional advice. Consult a qualified expert."

/-- The fields of `VerificationContext` the gate reads. -/
structure ScopeVerification where
  role_level : Int
  verified : Bool
  role : String

/-- The fields of `PrimaryOutput`/`SynthesizerOutput` the gate reads. -/
structure ScopeOutput where
  answer : String
  reasoning_trace : List String

/-- Python `" ".join`. -/
def joinSpace : List String → String
  | [] => ""
  | [s] => s
  | s :: rest => s ++ " " ++ joinSpace rest

/-- The `full_text` assembly: the answer, plus a space and the joined
reasoning trace when the trace is nonempty (truthy). -/
def scopeFullText (output : ScopeOutput) : String :=
  if output.reasoning_trace ≠ [] then output.answer ++ " " ++ joinSpace output.reasoning_trace
  else output.answer

/-- One violation dict appended by the scan loop (`sampleMatches` models
the "matches" key, `matches[:3]`). -/
structure ScopeViolationRec where
  pattern : String
  sampleMatches : List String
  required_level : Int
  reason : String
deriving DecidableEq

/-- One iteration of the scan loop: a rule contributes a violation exactly
when its matches are nonempty and `role_level < rule.min_level` (the
sample keeps `matches[:3]`). -/
def scopeViolationOf (ft : String) (role_level : Int) (rule : ScopeRule) :
    Option ScopeViolationRec :=
  if rule.matcher ft ≠ [] ∧ role_level < rule.min_level then
    some { pattern := rule.raw, sampleMatches := (rule.matcher ft).take 3,
           required_level := rule.min_level, reason := rule.reason }
  else none

/-- The `violations` list accumulated over the configured rules. -/
def scopeViolations (ft : String) (role_level : Int) (rules : List ScopeRule) :
    List ScopeViolationRec :=
  rules.filterMap (scopeViolationOf ft role_level)

/-- Python substring containment `needle in hay`. -/
def strContainsSub (hay needle : List Char) : Bool :=
  (List.range (hay.length + 1)).any fun i =>
    decide ((hay.drop i).take needle.length = needle)

/-- The `disclaimer_issue` check: required, low tier (`role_level ≤ 2`),
and the lowered snippet absent from the lowered full text. -/
def scopeDisclaimerIssue (ft : String) (role_level : Int) (config : ScopeGateConfig) :
    Option String :=
  if config.require_disclaimer_low_tier ∧ role_level ≤ 2 ∧
     strContainsSub (pyLower ft).data (pyLower config.low_tier_disclaimer_snippet).data = false
  then some "Missing required low-tier disclaimer"
  else none

/-- The `suggested_rewrite_prompt` f-string of the REWRITE branch. -/
def suggestedRewritePrompt (role_level : Int) (role : String) (snippet ft : String) : String :=
  "Rewrite the output to be safe and appropriate for role_level " ++ toString role_level ++
  " (" ++ role ++ "). " ++
  "Remove diagnostic, prognostic, prescriptive, strategic, or probabilistic language. " ++
  "Add this disclaimer at the top: \"" ++ snippet ++ "\". " ++
  "Keep helpful general information only. Be concise. " ++
  "Original output: " ++ strTake ft 800 ++ "..."

/-- The `PASS` / `REWRITE` / `REFUSE` decision literal. -/
inductive ScopeDecision where
  | PASS
  | REWRITE
  | REFUSE
deriving DecidableEq

/-- The dict returned by `scope_gate_v1` (`details` flattened). -/
structure ScopeResult where
  decision : ScopeDecision
  reason : String
  violations : List ScopeViolationRec
  disclaimer_issue : Option String
  suggested_rewrite_prompt : Option String

/-- `scope_gate_v1`, the deterministic post-generation scope guard. -/
def scope_gate_v1 (output : ScopeOutput) (verification : ScopeVerification)
    (config : ScopeGateConfig) : ScopeResult :=
  if scopeViolations (scopeFullText output) verification.role_level config.rules ≠ [] ∨
     scopeDisclaimerIssue (scopeFullText output) verification.role_level config ≠ none then
    if 2 ≤ verification.role_level then
      { decision := .REWRITE
        reason := "Scope violations for role_level " ++ toString verification.role_level
        violations := scopeViolations (scopeFullText output) verification.role_level config.rules
        disclaimer_issue := scopeDisclaimerIssue (scopeFullText output) verification.role_level config
        suggested_rewrite_prompt := some (suggestedRewritePrompt verification.role_level
          verification.role config.low_tier_disclaimer_snippet (scopeFullText output)) }
    else
      { decision := .REFUSE
        reason := "Output contains content unsafe for public/unverified users"
        violations := scopeViolations (scopeFullText output) verification.role_level config.rules
        disclaimer_issue := scopeDisclaimerIssue (scopeFullText output) verification.role_level config
        suggested_rewrite_prompt := none }
  else
    { decision := .PASS
      reason := "Content appropriate for verified role"
      violations := []
      disclaimer_issue := none
      suggested_rewrite_prompt := none }

/-- **C9.**  A configured rule contributes a violation exactly when its
pattern matches and the caller\x27s `role_level` is below the rule\x27s
`min_level`; with no violation and no disclaimer issue the decision is
PASS; with violations or a disclaimer issue and `role_level ≥ 2` the
decision is REWRITE, carrying a suggested rewrite prompt; with violations
and `role_level < 2` the decision is REFUSE. -/
theorem c9_scope_gate :
    (∀ (ft : String) (role : Int) (rules : List ScopeRule),
      scopeViolations ft role rules ≠ [] ↔
        ∃ r ∈ rules, r.matcher ft ≠ [] ∧ role < r.min_level) ∧
    (∀ (o : ScopeOutput) (ve : ScopeVerification) (c : ScopeGateConfig),
      scopeViolations (scopeFullText o) ve.role_level c.rules = [] →
      scopeDisclaimerIssue (scopeFullText o) ve.role_level c = none →
      (scope_gate_v1 o ve c).decision = .PASS) ∧
    (∀ (o : ScopeOutput) (ve : ScopeVerification) (c : ScopeGateConfig),
      (scopeViolations (scopeFullText o) ve.role_level c.rules ≠ [] ∨
        scopeDisclaimerIssue (scopeFullText o) ve.role_level c ≠ none) →
      2 ≤ ve.role_level →
      (scope_gate_v1 o ve c).decision = .REWRITE ∧
      (scope_gate_v1 o ve c).suggested_rewrite_prompt ≠ none) ∧
    (∀ (o : ScopeOutput) (ve : ScopeVerification) (c : ScopeGateConfig),
      scopeViolations (scopeFullText o) ve.role_level c.rules ≠ [] →
      ve.role_level < 2 →
      (scope_gate_v1 o ve c).decision = .REFUSE) := by
  refine ⟨?_, ?_, ?_, ?_⟩
  · intro ft role rules
    unfold scopeViolations
    rw [ne_eq, List.filterMap_eq_nil]
    push_neg
    constructor
    · rintro ⟨r, hr, hne⟩
      refine ⟨r, hr, ?_⟩
      by_contra hc
      apply hne
      unfold scopeViolationOf
      rw [if_neg hc]
    · rintro ⟨r, hr, hc⟩
      refine ⟨r, hr, ?_⟩
      unfold scopeViolationOf
      rw [if_pos hc]
      exact fun h => Option.noConfusion h
  · intro o ve c hv hd
    have hcond : ¬ (scopeViolations (scopeFullText o) ve.role_level c.rules ≠ [] ∨
        scopeDisclaimerIssue (scopeFullText o) ve.role_level c ≠ none) := by
      simp [hv, hd]
    unfold scope_gate_v1
    rw [if_neg hcond]
  · intro o ve c hcond h2
    unfold scope_gate_v1
    rw [if_pos hcond, if_pos h2]
    exact ⟨rfl, fun h => Option.noConfusion h⟩
  · intro o ve c hv hlt
    unfold scope_gate_v1
    rw [if_pos (Or.inl hv), if_neg (not_le.mpr hlt)]

/-- A literal-substring `findall` used to instantiate a configured rule. -/
def findallLit (needle : String) (hay : String) : List String :=
  (List.range (hay.data.length + 1)).filterMap fun i =>
    if (hay.data.drop i).take needle.data.length = needle.data then some needle else none

/-- The healthcare block rule of the default config, with its alternation
instantiated to the literal `diagnosis` branch. -/
def c9rule : ScopeRule :=
  { matcher := findallLit "diagnosis"
    min_level := 3
    reason := "Diagnostic/prognostic language"
    raw := "diagnosis" }

/-- A config holding the rule above, with the default disclaimer. -/
def c9config : ScopeGateConfig :=
  { rules := [c9rule] }

/-- An answer with diagnostic language and no disclaimer. -/
def c9out : ScopeOutput :=
  { answer := "Your diagnosis is likely the flu."
    reasoning_trace := [] }

/-- A level-2 verified member. -/
def c9verif : ScopeVerification :=
  { role_level := 2
    verified := true
    role := "member" }

/-- `c9_scope_gate` instantiated: diagnostic language shown to a level-2
member is rewritten, with a suggested rewrite prompt attached. -/
theorem c9_scope_gate_witness :
    (scope_gate_v1 c9out c9verif c9config).decision = .REWRITE ∧
    (scope_gate_v1 c9out c9verif c9config).suggested_rewrite_prompt ≠ none :=
  c9_scope_gate.2.2.1 c9out c9verif c9config (by decide) (by decide)

end Ecosphere
